import Mathlib

/-!
Shallow embedding of the xdef evaluation engine of `src/cdo/cs_xdef_eval.c`
(code_saturne CDO module), together with proofs about the evaluators.

Modelling conventions:
* `cs_real_t *` buffers are total functions `ℕ → ℚ` (exact arithmetic stands
  in for IEEE doubles); a C store `buf[j] = v` is the functional update `upd`.
* Nullable id lists `const cs_lnum_t *elt_ids` are `Option (ℕ → ℕ)`.
* `bft_error` (a fatal abort) is modelled by returning `Except.error msg`;
  functions without an error path return the updated buffer directly.
* External collaborators that are not part of this repository's sources
  (reconstruction primitives from `cs_reco.h`, quadrature point generators,
  triangle-area helpers) are passed as explicit function parameters.
* `for` loops become `List.foldl` over `List.range` / `List.range'`.
-/

/-- Functional store: `upd f j v` is the buffer `f` after the C write
`f[j] = v`. -/
def upd (f : ℕ → ℚ) (j : ℕ) (v : ℚ) : ℕ → ℚ := fun m => if m = j then v else f m

/-- Shorthand used by the C file: `_dp3` is `cs_math_3_dot_product`
(`src/base/cs_math.h`). -/
def cs_math_3_dot_product (u v : ℕ → ℚ) : ℚ := u 0 * v 0 + u 1 * v 1 + u 2 * v 2

/-- Matrix-vector product `cs_math_33_3_product` from `src/base/cs_math.h`:
it writes the three components `mv[0..2]` through the output pointer, here the
slots `0`, `1`, `2` of the output buffer. -/
def cs_math_33_3_product (m : ℕ → ℕ → ℚ) (v : ℕ → ℚ) (mv : ℕ → ℚ) : ℕ → ℚ :=
  upd (upd (upd mv 0 (m 0 0 * v 0 + m 0 1 * v 1 + m 0 2 * v 2))
        1 (m 1 0 * v 0 + m 1 1 * v 1 + m 1 2 * v 2))
      2 (m 2 0 * v 0 + m 2 1 * v 1 + m 2 2 * v 2)

/-- Support-location tag of an array/field payload.  The C code uses the
bit-mask flags `cs_flag_primal_cell`, `cs_flag_primal_vtx`,
`cs_flag_dual_face_byc` (external header `cs_defs.h`); the dispatch only ever
compares a location against one of these masks, so the mask algebra is
faithfully rendered by a closed tag type with decidable equality (`other`
covers any location matching none of the named masks). -/
inductive cs_flag : Type
  | primal_cell
  | primal_vtx
  | dual_face_byc
  | other : ℕ → cs_flag
deriving DecidableEq

/-- `cs_flag_test(loc, mask)`: does the location carry all bits of `mask`?
The named masks are pairwise bit-disjoint in the source, so the test holds
exactly when the tags coincide. -/
def cs_flag_test (loc mask : cs_flag) : Bool := loc = mask

/-- Per-face (or per-edge) geometric quantities, `cs_quant_t`. -/
structure cs_quant_t where
  meas : ℚ
  unitv : ℕ → ℚ
  center : ℕ → ℚ

/-- Adjacency `cs_adjacency_t` (index + ids arrays). -/
structure cs_adjacency_t where
  idx : ℕ → ℕ
  ids : ℕ → ℕ

/-- Connectivity bundle `cs_cdo_connect_t` (the fields the evaluators read). -/
structure cs_cdo_connect_t where
  c2v : cs_adjacency_t
  c2e : cs_adjacency_t
  f2e : cs_adjacency_t
  e2v : cs_adjacency_t

/-- Geometric quantities `cs_cdo_quantities_t` (the fields the evaluators
read); `face f` models `cs_quant_set_face(f, quant)`, which merely gathers the
stored per-face quantities. -/
structure cs_cdo_quantities_t where
  n_cells : ℕ
  n_vertices : ℕ
  n_faces : ℕ
  dcell_vol : ℕ → ℚ
  vtx_coord : ℕ → ℚ
  cell_centers : ℕ → ℚ
  face : ℕ → cs_quant_t

/-- Time step structure (only `t_cur` is read). -/
structure cs_time_step_t where
  t_cur : ℚ

/-- Array payload `cs_xdef_array_input_t`. -/
structure cs_xdef_array_input_t where
  stride : ℕ
  loc : cs_flag
  values : ℕ → ℚ
  index : ℕ → ℕ

/-- Field payload `cs_field_t` (location id, dimension and values buffer). -/
structure cs_field_t where
  dim : ℕ
  location_id : ℕ
  val : ℕ → ℚ

/-- Mesh-location id returned by `cs_mesh_location_get_id_by_name("cells")`;
the registry is external, only distinctness of the two ids matters. -/
def c_ml_id : ℕ := 0

/-- Mesh-location id returned by
`cs_mesh_location_get_id_by_name("vertices")`. -/
def v_ml_id : ℕ := 1

/-- Analytic payload `cs_xdef_analytic_input_t`: the callback receives the
current time, the number of points and the coordinate buffer, and returns the
filled output buffer (the opaque `input` context is folded into the
closure). -/
structure cs_xdef_analytic_input_t where
  func : ℚ → ℕ → (ℕ → ℚ) → (ℕ → ℚ)

/-- Local cell geometry cache `cs_cell_mesh_t` (the fields the cellwise
evaluators read).  `flag_feq` records whether the capability bit
`CS_CDO_LOCAL_FEQ` (cached per-edge triangle areas `tef`) is present in
`cm->flag`. -/
structure cs_cell_mesh_t where
  c_id : ℕ
  n_vc : ℕ
  flag_feq : Bool
  xc : ℕ → ℚ
  xv : ℕ → ℚ
  v_ids : ℕ → ℕ
  wvc : ℕ → ℚ
  e2v_ids : ℕ → ℕ
  f2e_idx : ℕ → ℕ
  f2e_ids : ℕ → ℕ
  tef : ℕ → ℚ
  face : ℕ → cs_quant_t
  edge : ℕ → cs_quant_t

/-- `cs_xdef_eval_scalar_by_val` (`cs_xdef_eval.c`, l.95): constant scalar for
a list of elements; indirect writes when `elt_ids != NULL && !compact`. -/
def cs_xdef_eval_scalar_by_val (n_elts : ℕ) (elt_ids : Option (ℕ → ℕ))
    (compact : Bool) (constant_val : ℕ → ℚ) (eval : ℕ → ℚ) : ℕ → ℚ :=
  match elt_ids, compact with
  | some ids, false =>
      (List.range n_elts).foldl (fun ev i => upd ev (ids i) (constant_val 0)) eval
  | _, _ =>
      (List.range n_elts).foldl (fun ev i => upd ev i (constant_val 0)) eval

/-- `cs_xdef_eval_vector_by_val` (`cs_xdef_eval.c`, l.170): constant 3-vector
for a list of elements. -/
def cs_xdef_eval_vector_by_val (n_elts : ℕ) (elt_ids : Option (ℕ → ℕ))
    (compact : Bool) (constant_val : ℕ → ℚ) (eval : ℕ → ℚ) : ℕ → ℚ :=
  match elt_ids, compact with
  | some ids, false =>
      (List.range n_elts).foldl
        (fun ev i =>
          upd (upd (upd ev (3 * ids i) (constant_val 0))
                (3 * ids i + 1) (constant_val 1))
              (3 * ids i + 2) (constant_val 2)) eval
  | _, _ =>
      (List.range n_elts).foldl
        (fun ev i =>
          upd (upd (upd ev (3 * i) (constant_val 0))
                (3 * i + 1) (constant_val 1))
              (3 * i + 2) (constant_val 2)) eval

/-- `cs_xdef_eval_tensor_by_val` (`cs_xdef_eval.c`, l.255): constant 3x3
tensor for a list of elements; `shift_eval[3*ki+kj] = constant_val[ki][kj]`
relative to the base offset `9*id`. -/
def cs_xdef_eval_tensor_by_val (n_elts : ℕ) (elt_ids : Option (ℕ → ℕ))
    (compact : Bool) (constant_val : ℕ → ℕ → ℚ) (eval : ℕ → ℚ) : ℕ → ℚ :=
  match elt_ids, compact with
  | some ids, false =>
      (List.range n_elts).foldl
        (fun ev i =>
          (List.range 3).foldl
            (fun ev2 ki =>
              (List.range 3).foldl
                (fun ev3 kj =>
                  upd ev3 (9 * ids i + (3 * ki + kj)) (constant_val ki kj)) ev2)
            ev) eval
  | _, _ =>
      (List.range n_elts).foldl
        (fun ev i =>
          (List.range 3).foldl
            (fun ev2 ki =>
              (List.range 3).foldl
                (fun ev3 kj =>
                  upd ev3 (9 * i + (3 * ki + kj)) (constant_val ki kj)) ev2)
            ev) eval

/-- `cs_xdef_eval_scalar_at_cells_by_array` (`cs_xdef_eval.c`, l.688).
`reco_pv c` models the external primitive `cs_reco_pv_at_cell_center`
(`cs_reco.h`): the scalar it stores for cell `c`. -/
def cs_xdef_eval_scalar_at_cells_by_array (reco_pv : ℕ → ℚ) (n_elts : ℕ)
    (elt_ids : Option (ℕ → ℕ)) (compact : Bool)
    (input : cs_xdef_array_input_t) (eval : ℕ → ℚ) :
    Except String (ℕ → ℚ) :=
  if cs_flag_test input.loc cs_flag.primal_cell then
    match elt_ids, compact with
    | some ids, false =>
        .ok ((List.range n_elts).foldl
          (fun ev i => upd ev (ids i) (input.values (ids i))) eval)
    | some ids, true =>
        .ok ((List.range n_elts).foldl
          (fun ev i => upd ev i (input.values (ids i))) eval)
    | none, _ =>
        .ok (fun j => if j < n_elts then input.values j else eval j)
  else if cs_flag_test input.loc cs_flag.primal_vtx then
    match elt_ids, compact with
    | some ids, false =>
        .ok ((List.range n_elts).foldl
          (fun ev i => upd ev (ids i) (reco_pv (ids i))) eval)
    | some ids, true =>
        .ok ((List.range n_elts).foldl
          (fun ev i => upd ev i (reco_pv (ids i))) eval)
    | none, _ =>
        .ok ((List.range n_elts).foldl
          (fun ev i => upd ev i (reco_pv i)) eval)
  else
    .error "cs_xdef_eval_scalar_at_cells_by_array: Invalid support for the input array"

/-- `cs_xdef_eval_at_vertices_by_array` (`cs_xdef_eval.c`, l.898): copy of a
vertex-supported array (any stride); fatal error on any other support. -/
def cs_xdef_eval_at_vertices_by_array (n_elts : ℕ) (elt_ids : Option (ℕ → ℕ))
    (compact : Bool) (input : cs_xdef_array_input_t) (eval : ℕ → ℚ) :
    Except String (ℕ → ℚ) :=
  if cs_flag_test input.loc cs_flag.primal_vtx then
    match elt_ids, compact with
    | some ids, false =>
        if input.stride = 1 then
          .ok ((List.range n_elts).foldl
            (fun ev i => upd ev (ids i) (input.values (ids i))) eval)
        else
          .ok ((List.range n_elts).foldl
            (fun ev i =>
              (List.range input.stride).foldl
                (fun ev2 j =>
                  upd ev2 (input.stride * ids i + j)
                    (input.values (input.stride * ids i + j))) ev) eval)
    | some ids, true =>
        if input.stride = 1 then
          .ok ((List.range n_elts).foldl
            (fun ev i => upd ev i (input.values (ids i))) eval)
        else
          .ok ((List.range n_elts).foldl
            (fun ev i =>
              (List.range input.stride).foldl
                (fun ev2 j =>
                  upd ev2 (input.stride * i + j)
                    (input.values (input.stride * ids i + j))) ev) eval)
    | none, _ =>
        .ok (fun j => if j < n_elts * input.stride then input.values j else eval j)
  else
    .error "cs_xdef_eval_at_vertices_by_array: Invalid support for the input array"

/-- Accumulation pass of `cs_xdef_eval_3_at_all_vertices_by_array`
(`cs_xdef_eval.c`, l.1021, primal-cell branch): starting from the
zero-initialised dual-volume buffer `dc_vol` and the caller's `eval`, every
cell adds, for each of its vertices, its dual volume to `dc_vol[v]` and the
volume-weighted cell vector to `eval[3*v .. 3*v+2]`.  The per-cell vector is
supplied by `cellvec` (read from the interlaced array in the primal-cell
branch, reconstructed externally in the dual-face branch).  Split out so the
accumulated state can be named in theorem statements. -/
def vtx_accum_state (connect : cs_cdo_connect_t) (quant : cs_cdo_quantities_t)
    (cellvec : ℕ → ℕ → ℚ) (eval : ℕ → ℚ) :
    (ℕ → ℚ) × (ℕ → ℚ) :=
  (List.range quant.n_cells).foldl
    (fun st c_id =>
      let cell_vector : ℕ → ℚ := cellvec c_id
      (List.range' (connect.c2v.idx c_id)
          (connect.c2v.idx (c_id + 1) - connect.c2v.idx c_id)).foldl
        (fun st2 j =>
          let v_id := connect.c2v.ids j
          let vol := quant.dcell_vol j
          (upd st2.1 v_id (st2.1 v_id + vol),
           (List.range 3).foldl
             (fun ev k =>
               upd ev (3 * v_id + k) (ev (3 * v_id + k) + vol * cell_vector k))
             st2.2))
        st)
    (fun _ => 0, eval)

/-- Normalisation pass of `cs_xdef_eval_3_at_all_vertices_by_array`: every
vertex slot is multiplied by the inverse of its accumulated dual volume. -/
def vtx_norm_pass (n_vertices : ℕ) (dc_vol : ℕ → ℚ) (eval : ℕ → ℚ) : ℕ → ℚ :=
  (List.range n_vertices).foldl
    (fun ev v_id =>
      let inv_dcvol := 1 / dc_vol v_id
      (List.range 3).foldl
        (fun ev2 k => upd ev2 (3 * v_id + k) (ev2 (3 * v_id + k) * inv_dcvol))
        ev)
    eval

/-- `cs_xdef_eval_3_at_all_vertices_by_array` (`cs_xdef_eval.c`, l.992):
volume-weighted interpolation of a cell-supported (or dual-face-supported)
vector array to all vertices.  `reco_dfbyc c k` models the external primitive
`cs_reco_dfbyc_at_cell_center` (component `k` of the estimated cell vector of
cell `c`).  A non-null id list or a count smaller than the vertex total is a
fatal error before anything is written. -/
def cs_xdef_eval_3_at_all_vertices_by_array (reco_dfbyc : ℕ → ℕ → ℚ)
    (n_elts : ℕ) (elt_ids : Option (ℕ → ℕ)) (compact : Bool)
    (connect : cs_cdo_connect_t) (quant : cs_cdo_quantities_t)
    (input : cs_xdef_array_input_t) (eval : ℕ → ℚ) :
    Except String (ℕ → ℚ) :=
  if elt_ids.isSome ∨ n_elts < quant.n_vertices then
    .error "cs_xdef_eval_3_at_all_vertices_by_array: Invalid case"
  else if cs_flag_test input.loc cs_flag.primal_cell then
    let st := vtx_accum_state connect quant
      (fun c_id k => input.values (input.stride * c_id + k)) eval
    .ok (vtx_norm_pass quant.n_vertices st.1 st.2)
  else if cs_flag_test input.loc cs_flag.dual_face_byc then
    let st := vtx_accum_state connect quant reco_dfbyc eval
    .ok (vtx_norm_pass quant.n_vertices st.1 st.2)
  else
    .error "cs_xdef_eval_3_at_all_vertices_by_array: Invalid case for the input array"

/-- `cs_xdef_eval_cw_cell_by_array` (`cs_xdef_eval.c`, l.1120): value of an
array-backed quantity at the current cell.  The vertex-support branch
accumulates (`eval[k] += wvc[v] * values[stride*v_ids[v]+k]`) into the
caller's buffer.  `reco_dfbyc_in_cell k` models the external primitive
`cs_reco_dfbyc_in_cell` (component `k` of the value it stores). -/
def cs_xdef_eval_cw_cell_by_array (reco_dfbyc_in_cell : ℕ → ℚ)
    (cm : cs_cell_mesh_t) (input : cs_xdef_array_input_t) (eval : ℕ → ℚ) :
    Except String (ℕ → ℚ) :=
  if cs_flag_test input.loc cs_flag.primal_cell then
    .ok ((List.range input.stride).foldl
      (fun ev k => upd ev k (input.values (input.stride * cm.c_id + k))) eval)
  else if cs_flag_test input.loc cs_flag.primal_vtx then
    .ok ((List.range cm.n_vc).foldl
      (fun ev v =>
        (List.range input.stride).foldl
          (fun ev2 k =>
            upd ev2 k
              (ev2 k + cm.wvc v * input.values (input.stride * cm.v_ids v + k)))
          ev)
      eval)
  else if cs_flag_test input.loc cs_flag.dual_face_byc then
    .ok ((List.range 3).foldl (fun ev k => upd ev k (reco_dfbyc_in_cell k)) eval)
  else
    .error "cs_xdef_eval_cw_cell_by_array: Invalid support for the input array"

/-- `cs_xdef_eval_cw_cell_by_field` (`cs_xdef_eval.c`, l.1290): value of a
field-backed quantity at the current cell; the vertex-located branch
accumulates `eval[0] += wvc[v] * values[v_ids[v]]`. -/
def cs_xdef_eval_cw_cell_by_field (cm : cs_cell_mesh_t) (field : cs_field_t)
    (eval : ℕ → ℚ) : Except String (ℕ → ℚ) :=
  if field.location_id = c_ml_id then
    .ok ((List.range field.dim).foldl
      (fun ev k => upd ev k (field.val (field.dim * cm.c_id + k))) eval)
  else if field.location_id = v_ml_id then
    .ok ((List.range cm.n_vc).foldl
      (fun ev v => upd ev 0 (ev 0 + cm.wvc v * field.val (cm.v_ids v)))
      eval)
  else
    .error "cs_xdef_eval_cw_cell_by_field: Invalid support for the input array"

/-- `cs_xdef_eval_cw_vector_at_xyz_by_val` (`cs_xdef_eval.c`, l.1378):
constant 3-vector replicated at `n_points` points.  The source writes the
third component at `eval[2*i + 2]` (sic), exactly as transcribed here. -/
def cs_xdef_eval_cw_vector_at_xyz_by_val (n_points : ℕ)
    (constant_val : ℕ → ℚ) (eval : ℕ → ℚ) : ℕ → ℚ :=
  (List.range n_points).foldl
    (fun ev i =>
      upd (upd (upd ev (3 * i) (constant_val 0))
            (3 * i + 1) (constant_val 1))
          (2 * i + 2) (constant_val 2))
    eval

/-- `cs_xdef_eval_cw_3_at_xyz_by_array` (`cs_xdef_eval.c`, l.1414): 3-vector
of an array-backed quantity replicated at `n_points` points.  The primal-cell
branch writes the third component at `eval[2*i + 2]` (sic); the dual-face
branch writes it at `eval[3*i + 2]`.  `reco_dfbyc_in_cell k` models the
external `cs_reco_dfbyc_in_cell`. -/
def cs_xdef_eval_cw_3_at_xyz_by_array (reco_dfbyc_in_cell : ℕ → ℚ)
    (cm : cs_cell_mesh_t) (n_points : ℕ) (input : cs_xdef_array_input_t)
    (eval : ℕ → ℚ) : Except String (ℕ → ℚ) :=
  if cs_flag_test input.loc cs_flag.primal_cell then
    let cell_vector : ℕ → ℚ := fun k => input.values (input.stride * cm.c_id + k)
    .ok ((List.range n_points).foldl
      (fun ev i =>
        upd (upd (upd ev (3 * i) (cell_vector 0))
              (3 * i + 1) (cell_vector 1))
            (2 * i + 2) (cell_vector 2))
      eval)
  else if cs_flag_test input.loc cs_flag.primal_vtx then
    .ok ((List.range input.stride).foldl
      (fun ev k =>
        (List.range cm.n_vc).foldl
          (fun ev2 v =>
            upd ev2 k
              (ev2 k + cm.wvc v * input.values (input.stride * cm.v_ids v + k)))
          ev)
      eval)
  else if cs_flag_test input.loc cs_flag.dual_face_byc then
    let cell_vector : ℕ → ℚ := reco_dfbyc_in_cell
    .ok ((List.range n_points).foldl
      (fun ev i =>
        upd (upd (upd ev (3 * i) (cell_vector 0))
              (3 * i + 1) (cell_vector 1))
            (3 * i + 2) (cell_vector 2))
      eval)
  else
    .error "cs_xdef_eval_cw_3_at_xyz_by_array: Invalid support for the input array"

/-- `cs_xdef_eval_cw_3_at_xyz_by_field` (`cs_xdef_eval.c`, l.1499): 3-vector
of a field-backed quantity at `n_points` points; the vertex-located branch
accumulates `eval[k] += wvc[v] * values[3*v_ids[v]+k]`. -/
def cs_xdef_eval_cw_3_at_xyz_by_field (cm : cs_cell_mesh_t) (n_points : ℕ)
    (field : cs_field_t) (eval : ℕ → ℚ) : Except String (ℕ → ℚ) :=
  if field.location_id = c_ml_id then
    let cell_vector : ℕ → ℚ := fun k => field.val (3 * cm.c_id + k)
    .ok ((List.range n_points).foldl
      (fun ev i =>
        upd (upd (upd ev (3 * i) (cell_vector 0))
              (3 * i + 1) (cell_vector 1))
            (3 * i + 2) (cell_vector 2))
      eval)
  else if field.location_id = v_ml_id then
    .ok ((List.range 3).foldl
      (fun ev k =>
        (List.range cm.n_vc).foldl
          (fun ev2 v =>
            upd ev2 k (ev2 k + cm.wvc v * field.val (3 * cm.v_ids v + k)))
          ev)
      eval)
  else
    .error "cs_xdef_eval_cw_3_at_xyz_by_field: Invalid support for the input array"

/-- `cs_xdef_eval_cw_at_vtx_flux_by_val` (`cs_xdef_eval.c`, l.1567): for each
edge of face `f`, half of the edge-to-face-centre triangle area times the
normal component of the constant flux is added to both edge endpoints'
accumulators.  When the `CS_CDO_LOCAL_FEQ` capability is absent the triangle
area is recomputed by the external `cs_compute_area_from_quant`, modelled by
`area_ext e` (edge `e` against the face centre of `f`). -/
def cs_xdef_eval_cw_at_vtx_flux_by_val (area_ext : ℕ → ℚ)
    (cm : cs_cell_mesh_t) (f : ℕ) (flux : ℕ → ℚ) (eval : ℕ → ℚ) : ℕ → ℚ :=
  if cm.flag_feq then
    (List.range' (cm.f2e_idx f) (cm.f2e_idx (f + 1) - cm.f2e_idx f)).foldl
      (fun ev i =>
        let e := cm.f2e_ids i
        let flx := 1 / 2 * cm.tef i *
          cs_math_3_dot_product flux (cm.face f).unitv
        let ev1 := upd ev (cm.e2v_ids (2 * e)) (ev (cm.e2v_ids (2 * e)) + flx)
        upd ev1 (cm.e2v_ids (2 * e + 1)) (ev1 (cm.e2v_ids (2 * e + 1)) + flx))
      eval
  else
    (List.range' (cm.f2e_idx f) (cm.f2e_idx (f + 1) - cm.f2e_idx f)).foldl
      (fun ev i =>
        let e := cm.f2e_ids i
        let flx := 1 / 2 * area_ext e *
          cs_math_3_dot_product flux (cm.face f).unitv
        let ev1 := upd ev (cm.e2v_ids (2 * e)) (ev (cm.e2v_ids (2 * e)) + flx)
        upd ev1 (cm.e2v_ids (2 * e + 1)) (ev1 (cm.e2v_ids (2 * e + 1)) + flx))
      eval

/-- `cs_xdef_eval_cw_flux_by_val` (`cs_xdef_eval.c`, l.1829): flux of a
constant vector through face `f`: `eval[f] = meas * dp3(unitv, flux)`. -/
def cs_xdef_eval_cw_flux_by_val (cm : cs_cell_mesh_t) (f : ℕ) (flux : ℕ → ℚ)
    (eval : ℕ → ℚ) : ℕ → ℚ :=
  let fq := cm.face f
  upd eval f (fq.meas * cs_math_3_dot_product fq.unitv flux)

/-- `cs_xdef_eval_cw_tensor_flux_by_val` (`cs_xdef_eval.c`, l.1854): the
source calls `cs_math_33_3_product(flux, fq.unitv, eval)` — which stores the
matrix-vector product at `eval[0..2]` — and then scales `eval[3*f+k]` by the
face area, exactly as transcribed here. -/
def cs_xdef_eval_cw_tensor_flux_by_val (cm : cs_cell_mesh_t) (f : ℕ)
    (flux : ℕ → ℕ → ℚ) (eval : ℕ → ℚ) : ℕ → ℚ :=
  let fq := cm.face f
  let ev1 := cs_math_33_3_product flux fq.unitv eval
  (List.range 3).foldl
    (fun ev k => upd ev (3 * f + k) (ev (3 * f + k) * fq.meas)) ev1

/-- Quadrature accuracy enum `cs_quadrature_type_t` (external header
`cs_quadrature.h`); the evaluators dispatch on its five named levels. -/
inductive cs_quadrature_type_t : Type
  | CS_QUADRATURE_NONE
  | CS_QUADRATURE_BARY
  | CS_QUADRATURE_BARY_SUBDIV
  | CS_QUADRATURE_HIGHER
  | CS_QUADRATURE_HIGHEST
deriving DecidableEq

/-- Constant `cs_math_onethird` from `cs_math.h`. -/
def cs_math_onethird : ℚ := 1 / 3

/-- Signature of the external 3-point triangle quadrature generator
`cs_quadrature_tria_3pts`: from the three triangle vertices and its area it
produces the Gauss points (point `p`, coordinate `k`) and the shared
weight. -/
def QuadTria3ptsT : Type :=
  (ℕ → ℚ) → (ℕ → ℚ) → (ℕ → ℚ) → ℚ → ((ℕ → ℕ → ℚ) × ℚ)

/-- `cs_xdef_eval_cw_at_vtx_flux_by_analytic` (`cs_xdef_eval.c`, l.1626):
vertex-portion flux of an analytically defined vector through face `f`.
`tria3pts` models the external `cs_quadrature_tria_3pts` and `area_ext e` the
external `cs_compute_area_from_quant` for edge `e` against the face centre.
The `CS_QUADRATURE_HIGHEST` case (and any other unlisted one) is the fatal
`bft_error` of the source's `default:` label. -/
def cs_xdef_eval_cw_at_vtx_flux_by_analytic (tria3pts : QuadTria3ptsT)
    (area_ext : ℕ → ℚ) (cm : cs_cell_mesh_t) (f : ℕ) (ts : cs_time_step_t)
    (anai : cs_xdef_analytic_input_t) (qtype : cs_quadrature_type_t)
    (eval : ℕ → ℚ) : Except String (ℕ → ℚ) :=
  match qtype with
  | .CS_QUADRATURE_NONE | .CS_QUADRATURE_BARY =>
      let flux_xc := anai.func ts.t_cur 1 cm.xc
      .ok (cs_xdef_eval_cw_at_vtx_flux_by_val area_ext cm f flux_xc eval)
  | .CS_QUADRATURE_BARY_SUBDIV =>
      let fq := cm.face f
      if cm.flag_feq then
        .ok ((List.range' (cm.f2e_idx f) (cm.f2e_idx (f + 1) - cm.f2e_idx f)).foldl
          (fun ev i =>
            let e := cm.f2e_ids i
            let v1 := cm.e2v_ids (2 * e)
            let v2 := cm.e2v_ids (2 * e + 1)
            let xyz : ℕ → ℚ := fun m =>
              let k := m % 3
              let xef := (cm.edge e).center k + fq.center k
              if m < 3 then cs_math_onethird * (xef + cm.xv (3 * v1 + k))
              else cs_math_onethird * (xef + cm.xv (3 * v2 + k))
            let val := anai.func ts.t_cur 2 xyz
            let ev1 := upd ev v1
              (ev v1 + 1 / 2 * cm.tef i *
                cs_math_3_dot_product (fun k => val k) fq.unitv)
            upd ev1 v2
              (ev1 v2 + 1 / 2 * cm.tef i *
                cs_math_3_dot_product (fun k => val (3 + k)) fq.unitv))
          eval)
      else
        .ok ((List.range' (cm.f2e_idx f) (cm.f2e_idx (f + 1) - cm.f2e_idx f)).foldl
          (fun ev i =>
            let e := cm.f2e_ids i
            let v1 := cm.e2v_ids (2 * e)
            let v2 := cm.e2v_ids (2 * e + 1)
            let xyz : ℕ → ℚ := fun m =>
              let k := m % 3
              let xef := (cm.edge e).center k + fq.center k
              if m < 3 then cs_math_onethird * (xef + cm.xv (3 * v1 + k))
              else cs_math_onethird * (xef + cm.xv (3 * v2 + k))
            let val := anai.func ts.t_cur 2 xyz
            let tef := area_ext e
            let ev1 := upd ev v1
              (ev v1 + 1 / 2 * tef *
                cs_math_3_dot_product (fun k => val k) fq.unitv)
            upd ev1 v2
              (ev1 v2 + 1 / 2 * tef *
                cs_math_3_dot_product (fun k => val (3 + k)) fq.unitv))
          eval)
  | .CS_QUADRATURE_HIGHER =>
      let fq := cm.face f
      if cm.flag_feq then
        .ok ((List.range' (cm.f2e_idx f) (cm.f2e_idx (f + 1) - cm.f2e_idx f)).foldl
          (fun ev i =>
            let e := cm.f2e_ids i
            let v1 := cm.e2v_ids (2 * e)
            let v2 := cm.e2v_ids (2 * e + 1)
            let svef := 1 / 2 * cm.tef i
            let g1 := tria3pts (cm.edge e).center fq.center
              (fun k => cm.xv (3 * v1 + k)) svef
            let g2 := tria3pts (cm.edge e).center fq.center
              (fun k => cm.xv (3 * v2 + k)) svef
            let gpts : ℕ → ℚ := fun m =>
              if m < 9 then g1.1 (m / 3) (m % 3) else g2.1 (m / 3 - 3) (m % 3)
            let val := anai.func ts.t_cur 6 gpts
            let add0 := ((List.range 3).foldl
              (fun a p =>
                a + cs_math_3_dot_product (fun k => val (3 * p + k)) fq.unitv)
              0) * g1.2
            let add1 := ((List.range 3).foldl
              (fun a p =>
                a + cs_math_3_dot_product (fun k => val (3 * (p + 3) + k)) fq.unitv)
              0) * g2.2
            let ev1 := upd ev v1 (ev v1 + add0)
            upd ev1 v2 (ev1 v2 + add1))
          eval)
      else
        .ok ((List.range' (cm.f2e_idx f) (cm.f2e_idx (f + 1) - cm.f2e_idx f)).foldl
          (fun ev i =>
            let e := cm.f2e_ids i
            let v1 := cm.e2v_ids (2 * e)
            let v2 := cm.e2v_ids (2 * e + 1)
            let svef := 1 / 2 * area_ext e
            let g1 := tria3pts (cm.edge e).center fq.center
              (fun k => cm.xv (3 * v1 + k)) svef
            let g2 := tria3pts (cm.edge e).center fq.center
              (fun k => cm.xv (3 * v2 + k)) svef
            let gpts : ℕ → ℚ := fun m =>
              if m < 9 then g1.1 (m / 3) (m % 3) else g2.1 (m / 3 - 3) (m % 3)
            let val := anai.func ts.t_cur 6 gpts
            let add0 := ((List.range 3).foldl
              (fun a p =>
                a + cs_math_3_dot_product (fun k => val (3 * p + k)) fq.unitv)
              0) * g1.2
            let add1 := ((List.range 3).foldl
              (fun a p =>
                a + cs_math_3_dot_product (fun k => val (3 * (p + 3) + k)) fq.unitv)
              0) * g2.2
            let ev1 := upd ev v1 (ev v1 + add0)
            upd ev1 v2 (ev1 v2 + add1))
          eval)
  | .CS_QUADRATURE_HIGHEST =>
      .error " Invalid type of quadrature."

/-- `cs_xdef_eval_cw_flux_by_analytic` (`cs_xdef_eval.c`, l.1883): flux of an
analytically defined vector through face `f`; `CS_QUADRATURE_HIGHEST` hits the
fatal `default:` error. -/
def cs_xdef_eval_cw_flux_by_analytic (tria3pts : QuadTria3ptsT)
    (cm : cs_cell_mesh_t) (f : ℕ) (ts : cs_time_step_t)
    (anai : cs_xdef_analytic_input_t) (qtype : cs_quadrature_type_t)
    (eval : ℕ → ℚ) : Except String (ℕ → ℚ) :=
  match qtype with
  | .CS_QUADRATURE_NONE | .CS_QUADRATURE_BARY =>
      let flux_xc := anai.func ts.t_cur 1 cm.xc
      .ok (cs_xdef_eval_cw_flux_by_val cm f flux_xc eval)
  | .CS_QUADRATURE_BARY_SUBDIV =>
      let fq := cm.face f
      .ok ((List.range' (cm.f2e_idx f) (cm.f2e_idx (f + 1) - cm.f2e_idx f)).foldl
        (fun ev i =>
          let e := cm.f2e_ids i
          let v1 := cm.e2v_ids (2 * e)
          let v2 := cm.e2v_ids (2 * e + 1)
          let xyz : ℕ → ℚ := fun k =>
            cs_math_onethird *
              (fq.center k + cm.xv (3 * v1 + k) + cm.xv (3 * v2 + k))
          let val := anai.func ts.t_cur 1 xyz
          upd ev f (ev f + cm.tef i * cs_math_3_dot_product val fq.unitv))
        eval)
  | .CS_QUADRATURE_HIGHER =>
      let fq := cm.face f
      .ok ((List.range' (cm.f2e_idx f) (cm.f2e_idx (f + 1) - cm.f2e_idx f)).foldl
        (fun ev i =>
          let e := cm.f2e_ids i
          let v1 := cm.e2v_ids (2 * e)
          let v2 := cm.e2v_ids (2 * e + 1)
          let g := tria3pts fq.center (fun k => cm.xv (3 * v1 + k))
            (fun k => cm.xv (3 * v2 + k)) (cm.tef e)
          let val := anai.func ts.t_cur 3 (fun m => g.1 (m / 3) (m % 3))
          let add := (List.range 3).foldl
            (fun a p =>
              a + cs_math_3_dot_product (fun k => val (3 * p + k)) fq.unitv) 0
          upd ev f (ev f + g.2 * add))
        (upd eval f 0))
  | .CS_QUADRATURE_HIGHEST =>
      .error " Invalid type of quadrature."

/-- `cs_xdef_eval_cw_tensor_flux_by_analytic` (`cs_xdef_eval.c`, l.2005):
flux of an analytically defined tensor through face `f`;
`CS_QUADRATURE_HIGHEST` hits the fatal `default:` error. -/
def cs_xdef_eval_cw_tensor_flux_by_analytic (tria3pts : QuadTria3ptsT)
    (cm : cs_cell_mesh_t) (f : ℕ) (ts : cs_time_step_t)
    (anai : cs_xdef_analytic_input_t) (qtype : cs_quadrature_type_t)
    (eval : ℕ → ℚ) : Except String (ℕ → ℚ) :=
  match qtype with
  | .CS_QUADRATURE_NONE | .CS_QUADRATURE_BARY =>
      let flux_xc := anai.func ts.t_cur 1 cm.xc
      .ok (cs_xdef_eval_cw_tensor_flux_by_val cm f
        (fun i j => flux_xc (3 * i + j)) eval)
  | .CS_QUADRATURE_BARY_SUBDIV =>
      let fq := cm.face f
      .ok ((List.range' (cm.f2e_idx f) (cm.f2e_idx (f + 1) - cm.f2e_idx f)).foldl
        (fun ev i =>
          let e := cm.f2e_ids i
          let v1 := cm.e2v_ids e
          let v2 := cm.e2v_ids (e + 1)
          let xyz : ℕ → ℚ := fun k =>
            cs_math_onethird *
              (fq.center k + cm.xv (3 * v1 + k) + cm.xv (3 * v2 + k))
          let tensor := anai.func ts.t_cur 1 xyz
          let mv := cs_math_33_3_product (fun a b => tensor (3 * a + b))
            fq.unitv (fun _ => 0)
          (List.range 3).foldl
            (fun ev2 k =>
              upd ev2 (3 * f + k) (ev2 (3 * f + k) + cm.tef i * mv k)) ev)
        eval)
  | .CS_QUADRATURE_HIGHER =>
      let fq := cm.face f
      .ok ((List.range' (cm.f2e_idx f) (cm.f2e_idx (f + 1) - cm.f2e_idx f)).foldl
        (fun ev i =>
          let e := cm.f2e_ids i
          let v1 := cm.e2v_ids (2 * e)
          let v2 := cm.e2v_ids (2 * e + 1)
          let g := tria3pts fq.center (fun k => cm.xv (3 * v1 + k))
            (fun k => cm.xv (3 * v2 + k)) (cm.tef e)
          let tensors := anai.func ts.t_cur 3 (fun m => g.1 (m / 3) (m % 3))
          let coef := g.2 * cm.tef i
          (List.range 3).foldl
            (fun ev2 p =>
              let mv := cs_math_33_3_product
                (fun a b => tensors (9 * p + 3 * a + b)) fq.unitv (fun _ => 0)
              (List.range 3).foldl
                (fun ev3 k =>
                  upd ev3 (3 * f + k) (ev3 (3 * f + k) + coef * mv k)) ev2)
            ev)
        (upd eval f 0))
  | .CS_QUADRATURE_HIGHEST =>
      .error " Invalid type of quadrature."

/-- External macro `CS_TRIANGLE_CASE`: the number of edges of a triangular
face (a face whose edge count equals it is integrated in one shot). -/
def CS_TRIANGLE_CASE : ℕ := 3

/-- Signature of the external triangle integration routines
`cs_quadrature_tria_{1pt,3pts,4pts}_{scal,vect}`: from the current time, the
three triangle vertices, the triangle area and the analytic callback they
accumulate the integral into the per-face sub-buffer (components `0..dim-1`)
and return it. -/
def QuadTriaIntegralT : Type :=
  ℚ → (ℕ → ℚ) → (ℕ → ℚ) → (ℕ → ℚ) → ℚ →
    (ℚ → ℕ → (ℕ → ℚ) → (ℕ → ℚ)) → (ℕ → ℚ) → (ℕ → ℚ)

/-- External quadrature table: one triangle integration routine per accuracy
level and output arity (spec sec. 2, "Quadrature table"). -/
structure cs_quadrature_tria_table where
  tria_1pt_scal : QuadTriaIntegralT
  tria_3pts_scal : QuadTriaIntegralT
  tria_4pts_scal : QuadTriaIntegralT
  tria_1pt_vect : QuadTriaIntegralT
  tria_3pts_vect : QuadTriaIntegralT
  tria_4pts_vect : QuadTriaIntegralT

/-- View of the output buffer shifted by `off`, modelling the C pointer
`eval + off` handed to a callee. -/
def bufferAt (ev : ℕ → ℚ) (off : ℕ) : ℕ → ℚ := fun j => ev (off + j)

/-- Merge a callee's writes through the pointer `eval + off` back into the
full buffer; the callee touches exactly the slots `0..wid-1` of its view. -/
def writeBack (ev : ℕ → ℚ) (off wid : ℕ) (sub : ℕ → ℚ) : ℕ → ℚ :=
  fun j => if off ≤ j ∧ j < off + wid then sub (j - off) else ev j

/-- `cs_xdef_eval_avg_at_b_faces_by_analytic` (`cs_xdef_eval.c`, l.430):
face averages of an analytic function on border faces.  `surftri` models the
external `cs_math_surftri` and `get3v` the external
`cs_connect_get_next_3_vertices` (the three vertices of a triangular face
from its first edges).  The source marks `compact` as `CS_UNUSED` and writes
every face's average at `eval + dim*f_id` in both the dense and the
indirection branch; the two per-face bodies of the source are identical, so
they are shared here as `doFace`. -/
def cs_xdef_eval_avg_at_b_faces_by_analytic (qtab : cs_quadrature_tria_table)
    (surftri : (ℕ → ℚ) → (ℕ → ℚ) → (ℕ → ℚ) → ℚ) (get3v : ℕ → ℕ × ℕ × ℕ)
    (n_elts : ℕ) (elt_ids : Option (ℕ → ℕ)) (compact : Bool)
    (connect : cs_cdo_connect_t) (quant : cs_cdo_quantities_t)
    (ts : cs_time_step_t) (anai : cs_xdef_analytic_input_t)
    (qtype : cs_quadrature_type_t) (dim : ℕ) (eval : ℕ → ℚ) :
    Except String (ℕ → ℚ) :=
  let qfuncE : Except String QuadTriaIntegralT :=
    if dim = 1 then
      match qtype with
      | .CS_QUADRATURE_BARY | .CS_QUADRATURE_BARY_SUBDIV => .ok qtab.tria_1pt_scal
      | .CS_QUADRATURE_HIGHER => .ok qtab.tria_3pts_scal
      | .CS_QUADRATURE_HIGHEST => .ok qtab.tria_4pts_scal
      | .CS_QUADRATURE_NONE => .error "Invalid quadrature type."
    else if dim = 3 then
      match qtype with
      | .CS_QUADRATURE_BARY | .CS_QUADRATURE_BARY_SUBDIV => .ok qtab.tria_1pt_vect
      | .CS_QUADRATURE_HIGHER => .ok qtab.tria_3pts_vect
      | .CS_QUADRATURE_HIGHEST => .ok qtab.tria_4pts_vect
      | .CS_QUADRATURE_NONE => .error "Invalid quadrature type."
    else
      .error " Invalid dimension of the analytical fucntion."
  match qfuncE with
  | .error msg => .error msg
  | .ok qfunc =>
      let doFace : (ℕ → ℚ) → ℕ → (ℕ → ℚ) := fun ev f_id =>
        let pfq := quant.face f_id
        let off := dim * f_id
        let start_idx := connect.f2e.idx f_id
        let end_idx := connect.f2e.idx (f_id + 1)
        let ev2 :=
          if end_idx - start_idx = CS_TRIANGLE_CASE then
            let v3s := get3v start_idx
            writeBack ev off dim
              (qfunc ts.t_cur
                (fun k => quant.vtx_coord (3 * v3s.1 + k))
                (fun k => quant.vtx_coord (3 * v3s.2.1 + k))
                (fun k => quant.vtx_coord (3 * v3s.2.2 + k))
                pfq.meas anai.func (bufferAt ev off))
          else
            (List.range' start_idx (end_idx - start_idx)).foldl
              (fun evl j =>
                let v1 := connect.e2v.ids (2 * connect.f2e.ids j)
                let v2 := connect.e2v.ids (2 * connect.f2e.ids j + 1)
                let x1 : ℕ → ℚ := fun k => quant.vtx_coord (3 * v1 + k)
                let x2 : ℕ → ℚ := fun k => quant.vtx_coord (3 * v2 + k)
                writeBack evl off dim
                  (qfunc ts.t_cur x1 x2 pfq.center (surftri x1 x2 pfq.center)
                    anai.func (bufferAt evl off)))
              ev
        (List.range dim).foldl
          (fun ev3 xyz => upd ev3 (off + xyz) (ev3 (off + xyz) * (1 / pfq.meas)))
          ev2
      match elt_ids with
      | none => .ok ((List.range quant.n_faces).foldl doFace eval)
      | some ids => .ok ((List.range n_elts).foldl (fun ev i => doFace ev (ids i)) eval)

/-- One write described as a (slot, value) pair. -/
def updPair (ev : ℕ → ℚ) (p : ℕ × ℚ) : ℕ → ℚ := upd ev p.1 p.2

/-- Apply a list of writes left to right. -/
def applyWrites (e : ℕ → ℚ) (L : List (ℕ × ℚ)) : ℕ → ℚ := L.foldl updPair e

/-- Writes emitted by iterating `wl` over a list of loop indices. -/
def writesOf {α : Type} (wl : α → List (ℕ × ℚ)) : List α → List (ℕ × ℚ)
  | [] => []
  | a :: t => wl a ++ writesOf wl t

/-- Extract the payload of a successful evaluation (zero buffer on error);
used to name concrete evaluation results in closed theorems. -/
def okOr (r : Except String (ℕ → ℚ)) : ℕ → ℚ :=
  match r with
  | .ok o => o
  | .error _ => fun _ => 0

/-- Degenerate face/edge quantities for fixture fields that are never read. -/
def trivialQuant : cs_quant_t := { meas := 0, unitv := fun _ => 0, center := fun _ => 0 }

/-- Degenerate cell cache for fixture fields that are never read. -/
def cmTrivial : cs_cell_mesh_t :=
  { c_id := 0, n_vc := 0, flag_feq := false, xc := fun _ => 0, xv := fun _ => 0,
    v_ids := fun j => j, wvc := fun _ => 0, e2v_ids := fun j => j,
    f2e_idx := fun _ => 0, f2e_ids := fun j => j, tef := fun _ => 0,
    face := fun _ => trivialQuant, edge := fun _ => trivialQuant }

/-- Element-id list of the spec's sampling scenario: cells 2, 5, 7 of 10. -/
def testIds : ℕ → ℕ := fun i => [2, 5, 7].getD i 0

/-- Constant vector value (1,2,3). -/
def testVec3 : ℕ → ℚ := fun k => if k = 0 then 1 else if k = 1 then 2 else 3

/-- Constant tensor value with distinct entries. -/
def testTensor9 : ℕ → ℕ → ℚ := fun i j => ((3 * i + j : ℕ) : ℚ)

/-- Scalar array on cell support with per-cell values. -/
def testArrayCells : cs_xdef_array_input_t :=
  { stride := 1, loc := cs_flag.primal_cell, values := fun j => (j : ℚ),
    index := fun _ => 0 }

/-- Compact run of the scalar-at-cells array evaluator on cells 2, 5, 7. -/
def testC1oc : ℕ → ℚ :=
  okOr (cs_xdef_eval_scalar_at_cells_by_array (fun _ => 0) 3 (some testIds) true
    testArrayCells (fun _ => 0))

/-- Non-compact run of the scalar-at-cells array evaluator on cells 2, 5, 7. -/
def testC1onc : ℕ → ℚ :=
  okOr (cs_xdef_eval_scalar_at_cells_by_array (fun _ => 0) 3 (some testIds) false
    testArrayCells (fun _ => 0))

/-- Cell cache with one face (local id 0) carrying two edges `(0,1)` and
`(1,2)`, each edge-to-centre triangle of area 1/2, face area 1 and normal
`(0,0,1)`: a unit square face split into two triangles. -/
def cmC2 : cs_cell_mesh_t :=
  { c_id := 0, n_vc := 3, flag_feq := true, xc := fun _ => 0, xv := fun _ => 0,
    v_ids := fun j => j, wvc := fun _ => 0,
    e2v_ids := fun j => [0, 1, 1, 2].getD j 0,
    f2e_idx := fun n => if n = 0 then 0 else 2, f2e_ids := fun i => i,
    tef := fun _ => 1 / 2,
    face := fun _ =>
      { meas := 1, unitv := fun k => if k = 2 then 1 else 0, center := fun _ => 0 },
    edge := fun _ => trivialQuant }

/-- Constant flux `(0,0,5)` along the `cmC2` face normal. -/
def fluxC2 : ℕ → ℚ := fun k => if k = 2 then 5 else 0

/-- Vector array on cell support holding `(1,2,3)` for cell 0. -/
def inputC3 : cs_xdef_array_input_t :=
  { stride := 3, loc := cs_flag.primal_cell, values := testVec3,
    index := fun _ => 0 }

/-- Result of the primal-cell branch of `cs_xdef_eval_cw_3_at_xyz_by_array`
on two points with cell value `(1,2,3)` and a zero output buffer. -/
def testC3buf : ℕ → ℚ :=
  okOr (cs_xdef_eval_cw_3_at_xyz_by_array (fun _ => 0) cmTrivial 2 inputC3
    (fun _ => 0))

/-- Cell cache whose face 1 has area 2 and unit normal `(1,0,0)`. -/
def cmC4 : cs_cell_mesh_t :=
  { cmTrivial with
    face := fun _ =>
      { meas := 2, unitv := fun k => if k = 0 then 1 else 0, center := fun _ => 0 } }

/-- Identity 3x3 tensor. -/
def idTensor : ℕ → ℕ → ℚ := fun i j => if i = j then 1 else 0

/-- Triangle integration fixture: the one-point rule applied to the supplied
callback, accumulating `area * f(x1)` into component 0 of the sub-buffer. -/
def qfuncConst1 : QuadTriaIntegralT :=
  fun t x1 _ _ area func sub => upd sub 0 (sub 0 + area * func t 1 x1 0)

/-- Quadrature table fixture built from `qfuncConst1`. -/
def testQtab : cs_quadrature_tria_table :=
  { tria_1pt_scal := qfuncConst1, tria_3pts_scal := qfuncConst1,
    tria_4pts_scal := qfuncConst1, tria_1pt_vect := qfuncConst1,
    tria_3pts_vect := qfuncConst1, tria_4pts_vect := qfuncConst1 }

/-- Triangle-area fixture: every edge-to-centre triangle has area 1/4. -/
def testSurftri : (ℕ → ℚ) → (ℕ → ℚ) → (ℕ → ℚ) → ℚ := fun _ _ _ => 1 / 4

/-- Fixture for `cs_connect_get_next_3_vertices`. -/
def testGet3v : ℕ → ℕ × ℕ × ℕ := fun _ => (0, 1, 2)

/-- Connectivity with border face 2 bounded by four edges (a quadrangle). -/
def connectC5 : cs_cdo_connect_t :=
  { c2v := { idx := fun _ => 0, ids := fun j => j },
    c2e := { idx := fun _ => 0, ids := fun j => j },
    f2e := { idx := fun n => if n ≤ 2 then 0 else 4, ids := fun j => j },
    e2v := { idx := fun _ => 0, ids := fun j => j } }

/-- Quantities with three faces of area 1. -/
def quantC5 : cs_cdo_quantities_t :=
  { n_cells := 0, n_vertices := 0, n_faces := 3, dcell_vol := fun _ => 0,
    vtx_coord := fun _ => 0, cell_centers := fun _ => 0,
    face := fun _ => { meas := 1, unitv := fun _ => 0, center := fun _ => 0 } }

/-- Analytic callback fixture: the constant function 1. -/
def anaiOne : cs_xdef_analytic_input_t := { func := fun _ _ _ => fun _ => 1 }

/-- Face-average run over the selected face list `[2]` with `compact=true`,
`dim=1`, barycentric quadrature and a zero output buffer. -/
def testC5out : ℕ → ℚ :=
  okOr (cs_xdef_eval_avg_at_b_faces_by_analytic testQtab testSurftri testGet3v
    1 (some fun _ => 2) true connectC5 quantC5 { t_cur := 0 } anaiOne
    .CS_QUADRATURE_BARY 1 (fun _ => 0))

/-- Connectivity with a single cell owning vertices 0 and 1. -/
def connectC6 : cs_cdo_connect_t :=
  { c2v := { idx := fun n => if n = 0 then 0 else 2, ids := fun j => j },
    c2e := { idx := fun _ => 0, ids := fun j => j },
    f2e := { idx := fun _ => 0, ids := fun j => j },
    e2v := { idx := fun _ => 0, ids := fun j => j } }

/-- Quantities for the one-cell, two-vertex mesh with unit dual volumes. -/
def quantC6 : cs_cdo_quantities_t :=
  { n_cells := 1, n_vertices := 2, n_faces := 0, dcell_vol := fun _ => 1,
    vtx_coord := fun _ => 0, cell_centers := fun _ => 0,
    face := fun _ => trivialQuant }

/-- Vector array on cell support holding `(1,2,3)` in every cell. -/
def inputC6 : cs_xdef_array_input_t :=
  { stride := 3, loc := cs_flag.primal_cell, values := testVec3,
    index := fun _ => 0 }

/-- Array on a support (dual faces by cell) handled by neither queried
bulk evaluator. -/
def inputC8 : cs_xdef_array_input_t :=
  { stride := 1, loc := cs_flag.dual_face_byc, values := fun _ => 0,
    index := fun _ => 0 }

/-- Cell cache with two local vertices of interpolation weight 1/2 each. -/
def cmC9 : cs_cell_mesh_t :=
  { cmTrivial with n_vc := 2, wvc := fun _ => 1 / 2 }

/-- Vector array on vertex support with per-slot values. -/
def inputC9 : cs_xdef_array_input_t :=
  { stride := 3, loc := cs_flag.primal_vtx, values := fun j => (j : ℚ),
    index := fun _ => 0 }

/-- Scalar field located at vertices. -/
def fieldC9s : cs_field_t :=
  { dim := 1, location_id := v_ml_id, val := fun j => (j : ℚ) }

/-- Vector field located at vertices. -/
def fieldC9v : cs_field_t :=
  { dim := 3, location_id := v_ml_id, val := fun j => (j : ℚ) }

/-- Write list of one stride-3 loop iteration writing vector `c` at base
slot `3*b`. -/
def vecWrites (c : ℕ → ℚ) (b : ℕ) : List (ℕ × ℚ) :=
  [(3 * b, c 0), (3 * b + 1, c 1), (3 * b + 2, c 2)]

/-- Write list of one stride-9 loop iteration writing tensor `ct` at base
slot `9*b`. -/
def tensorWrites (ct : ℕ → ℕ → ℚ) (b : ℕ) : List (ℕ × ℚ) :=
  [(9 * b, ct 0 0), (9 * b + 1, ct 0 1), (9 * b + 2, ct 0 2),
   (9 * b + 3, ct 1 0), (9 * b + 4, ct 1 1), (9 * b + 5, ct 1 2),
   (9 * b + 6, ct 2 0), (9 * b + 7, ct 2 1), (9 * b + 8, ct 2 2)]

/-- Result of the vertex-support branch of `cs_xdef_eval_cw_cell_by_array` on
the two-vertex cache with a zero buffer. -/
def testC9o1 : ℕ → ℚ :=
  okOr (cs_xdef_eval_cw_cell_by_array (fun _ => 0) cmC9 inputC9 (fun _ => 0))

/-- Result of the vertex-located branch of `cs_xdef_eval_cw_cell_by_field` on
the two-vertex cache with a zero buffer. -/
def testC9o2 : ℕ → ℚ :=
  okOr (cs_xdef_eval_cw_cell_by_field cmC9 fieldC9s (fun _ => 0))

/-- Result of the vertex-located branch of `cs_xdef_eval_cw_3_at_xyz_by_field`
on the two-vertex cache with a zero buffer. -/
def testC9o3 : ℕ → ℚ :=
  okOr (cs_xdef_eval_cw_3_at_xyz_by_field cmC9 0 fieldC9v (fun _ => 0))

/-!
### Generic lemmas about buffer writes
-/

theorem upd_at (f : ℕ → ℚ) (j : ℕ) (v : ℚ) : upd f j v j = v := by
  simp [upd]

theorem upd_of_ne (f : ℕ → ℚ) (j : ℕ) (v : ℚ) (m : ℕ) (h : m ≠ j) :
    upd f j v m = f m := by
  simp [upd, h]

theorem applyWrites_append (e : ℕ → ℚ) (L1 L2 : List (ℕ × ℚ)) :
    applyWrites e (L1 ++ L2) = applyWrites (applyWrites e L1) L2 := by
  simp [applyWrites, List.foldl_append]

theorem applyWrites_untouched (L : List (ℕ × ℚ)) (e : ℕ → ℚ) (j : ℕ)
    (h : ∀ p ∈ L, p.1 ≠ j) : applyWrites e L j = e j := by
  induction L generalizing e with
  | nil => rfl
  | cons a t ih =>
    have h1 : applyWrites e (a :: t) = applyWrites (updPair e a) t := rfl
    rw [h1, ih _ (fun p hp => h p (List.mem_cons_of_mem _ hp))]
    exact upd_of_ne _ _ _ _ (Ne.symm (h a (List.mem_cons_self _ _)))

theorem applyWrites_last_const (L : List (ℕ × ℚ)) (e : ℕ → ℚ) (j : ℕ) (v : ℚ)
    (hex : ∃ p ∈ L, p.1 = j) (hval : ∀ p ∈ L, p.1 = j → p.2 = v) :
    applyWrites e L j = v := by
  induction L generalizing e with
  | nil => simp at hex
  | cons a t ih =>
    by_cases htl : ∃ p ∈ t, p.1 = j
    · exact ih (updPair e a) htl (fun p hp => hval p (List.mem_cons_of_mem _ hp))
    · have ha : a.1 = j := by
        rcases hex with ⟨p, hp, hpj⟩
        rcases List.mem_cons.mp hp with h1 | h2
        · rw [← h1]; exact hpj
        · exact absurd ⟨p, h2, hpj⟩ htl
      have hnt : ∀ p ∈ t, p.1 ≠ j := fun p hp hc => htl ⟨p, hp, hc⟩
      have h1 : applyWrites e (a :: t) = applyWrites (updPair e a) t := rfl
      rw [h1, applyWrites_untouched t _ j hnt]
      have h2 : updPair e a j = a.2 := by rw [updPair, ← ha]; exact upd_at _ _ _
      rw [h2]
      exact hval a (List.mem_cons_self _ _) ha

theorem mem_writesOf {α : Type} (wl : α → List (ℕ × ℚ)) (l : List α)
    (p : ℕ × ℚ) : p ∈ writesOf wl l ↔ ∃ a ∈ l, p ∈ wl a := by
  induction l with
  | nil => simp [writesOf]
  | cons b t ih => simp [writesOf, ih]

theorem foldl_applyWrites {α : Type} (wl : α → List (ℕ × ℚ)) (l : List α)
    (e : ℕ → ℚ) :
    l.foldl (fun ev i => applyWrites ev (wl i)) e = applyWrites e (writesOf wl l) := by
  induction l generalizing e with
  | nil => rfl
  | cons a t ih =>
    rw [List.foldl_cons, ih, writesOf, applyWrites_append]

theorem vecWrites_mem (c : ℕ → ℚ) (b k : ℕ) (hk : k < 3) :
    (3 * b + k, c k) ∈ vecWrites c b := by
  interval_cases k <;> simp [vecWrites]

theorem vecWrites_snd (c : ℕ → ℚ) (b : ℕ) (p : ℕ × ℚ)
    (hp : p ∈ vecWrites c b) :
    ∃ k2, k2 < 3 ∧ p.1 = 3 * b + k2 ∧ p.2 = c k2 := by
  simp only [vecWrites, List.mem_cons, List.not_mem_nil, or_false] at hp
  rcases hp with h | h | h <;> subst h
  · exact ⟨0, by omega, by omega, rfl⟩
  · exact ⟨1, by omega, rfl, rfl⟩
  · exact ⟨2, by omega, rfl, rfl⟩

theorem tensorWrites_mem (ct : ℕ → ℕ → ℚ) (b k : ℕ) (hk : k < 9) :
    (9 * b + k, ct (k / 3) (k % 3)) ∈ tensorWrites ct b := by
  interval_cases k <;> simp [tensorWrites]

theorem tensorWrites_snd (ct : ℕ → ℕ → ℚ) (b : ℕ) (p : ℕ × ℚ)
    (hp : p ∈ tensorWrites ct b) :
    ∃ k2, k2 < 9 ∧ p.1 = 9 * b + k2 ∧ p.2 = ct (k2 / 3) (k2 % 3) := by
  simp only [tensorWrites, List.mem_cons, List.not_mem_nil, or_false] at hp
  rcases hp with h | h | h | h | h | h | h | h | h <;> subst h
  · exact ⟨0, by omega, by omega, rfl⟩
  · exact ⟨1, by omega, rfl, rfl⟩
  · exact ⟨2, by omega, rfl, rfl⟩
  · exact ⟨3, by omega, rfl, rfl⟩
  · exact ⟨4, by omega, rfl, rfl⟩
  · exact ⟨5, by omega, rfl, rfl⟩
  · exact ⟨6, by omega, rfl, rfl⟩
  · exact ⟨7, by omega, rfl, rfl⟩
  · exact ⟨8, by omega, rfl, rfl⟩

theorem foldl_single_upd_slot_self (n : ℕ) (g : ℕ → ℚ) (e : ℕ → ℚ) (i : ℕ)
    (hi : i < n) :
    ((List.range n).foldl (fun ev i2 => upd ev i2 (g i2)) e) i = g i := by
  show ((List.range n).foldl (fun ev i2 => applyWrites ev [(i2, g i2)]) e) i = g i
  rw [foldl_applyWrites]
  refine applyWrites_last_const _ _ _ _
    ⟨(i, g i), (mem_writesOf _ _ _).mpr ⟨i, List.mem_range.mpr hi, by simp⟩, rfl⟩ ?_
  intro p hp hpj
  rcases (mem_writesOf _ _ _).mp hp with ⟨a, _, hpa⟩
  simp only [List.mem_singleton] at hpa
  subst hpa
  have h2 : a = i := hpj
  rw [h2]

theorem foldl_single_upd_slot_ids (n : ℕ) (ids : ℕ → ℕ) (g : ℕ → ℚ)
    (e : ℕ → ℚ) (i : ℕ) (hi : i < n) :
    ((List.range n).foldl (fun ev i2 => upd ev (ids i2) (g (ids i2))) e) (ids i)
      = g (ids i) := by
  show ((List.range n).foldl
    (fun ev i2 => applyWrites ev [(ids i2, g (ids i2))]) e) (ids i) = g (ids i)
  rw [foldl_applyWrites]
  refine applyWrites_last_const _ _ _ _
    ⟨(ids i, g (ids i)),
      (mem_writesOf _ _ _).mpr ⟨i, List.mem_range.mpr hi, by simp⟩, rfl⟩ ?_
  intro p hp hpj
  rcases (mem_writesOf _ _ _).mp hp with ⟨a, _, hpa⟩
  simp only [List.mem_singleton] at hpa
  subst hpa
  have h2 : ids a = ids i := hpj
  rw [h2]

theorem vector_by_val_compact_char (n : ℕ) (ids : ℕ → ℕ) (c e : ℕ → ℚ)
    (i k : ℕ) (hi : i < n) (hk : k < 3) :
    cs_xdef_eval_vector_by_val n (some ids) true c e (3 * i + k) = c k := by
  show ((List.range n).foldl (fun ev i2 => applyWrites ev (vecWrites c i2)) e)
    (3 * i + k) = c k
  rw [foldl_applyWrites]
  refine applyWrites_last_const _ _ _ _
    ⟨(3 * i + k, c k),
      (mem_writesOf _ _ _).mpr ⟨i, List.mem_range.mpr hi, vecWrites_mem c i k hk⟩,
      rfl⟩ ?_
  intro p hp hpj
  rcases (mem_writesOf _ _ _).mp hp with ⟨a, _, hpa⟩
  rcases vecWrites_snd c a p hpa with ⟨k2, hk2, hfst, hsnd⟩
  rw [hpj] at hfst
  have h2 : k2 = k := by omega
  rw [hsnd, h2]

theorem vector_by_val_noncompact_char (n : ℕ) (ids : ℕ → ℕ) (c e : ℕ → ℚ)
    (i k : ℕ) (hi : i < n) (hk : k < 3) :
    cs_xdef_eval_vector_by_val n (some ids) false c e (3 * ids i + k) = c k := by
  show ((List.range n).foldl
    (fun ev i2 => applyWrites ev (vecWrites c (ids i2))) e) (3 * ids i + k) = c k
  rw [foldl_applyWrites]
  refine applyWrites_last_const _ _ _ _
    ⟨(3 * ids i + k, c k),
      (mem_writesOf _ _ _).mpr
        ⟨i, List.mem_range.mpr hi, vecWrites_mem c (ids i) k hk⟩, rfl⟩ ?_
  intro p hp hpj
  rcases (mem_writesOf _ _ _).mp hp with ⟨a, _, hpa⟩
  rcases vecWrites_snd c (ids a) p hpa with ⟨k2, hk2, hfst, hsnd⟩
  rw [hpj] at hfst
  have h2 : k2 = k := by omega
  rw [hsnd, h2]

theorem tensor_by_val_compact_char (n : ℕ) (ids : ℕ → ℕ) (ct : ℕ → ℕ → ℚ)
    (e : ℕ → ℚ) (i k : ℕ) (hi : i < n) (hk : k < 9) :
    cs_xdef_eval_tensor_by_val n (some ids) true ct e (9 * i + k)
      = ct (k / 3) (k % 3) := by
  show ((List.range n).foldl (fun ev i2 => applyWrites ev (tensorWrites ct i2)) e)
    (9 * i + k) = ct (k / 3) (k % 3)
  rw [foldl_applyWrites]
  refine applyWrites_last_const _ _ _ _
    ⟨(9 * i + k, ct (k / 3) (k % 3)),
      (mem_writesOf _ _ _).mpr
        ⟨i, List.mem_range.mpr hi, tensorWrites_mem ct i k hk⟩, rfl⟩ ?_
  intro p hp hpj
  rcases (mem_writesOf _ _ _).mp hp with ⟨a, _, hpa⟩
  rcases tensorWrites_snd ct a p hpa with ⟨k2, hk2, hfst, hsnd⟩
  rw [hpj] at hfst
  have h2 : k2 = k := by omega
  rw [hsnd, h2]

theorem tensor_by_val_noncompact_char (n : ℕ) (ids : ℕ → ℕ) (ct : ℕ → ℕ → ℚ)
    (e : ℕ → ℚ) (i k : ℕ) (hi : i < n) (hk : k < 9) :
    cs_xdef_eval_tensor_by_val n (some ids) false ct e (9 * ids i + k)
      = ct (k / 3) (k % 3) := by
  show ((List.range n).foldl
    (fun ev i2 => applyWrites ev (tensorWrites ct (ids i2))) e) (9 * ids i + k)
    = ct (k / 3) (k % 3)
  rw [foldl_applyWrites]
  refine applyWrites_last_const _ _ _ _
    ⟨(9 * ids i + k, ct (k / 3) (k % 3)),
      (mem_writesOf _ _ _).mpr
        ⟨i, List.mem_range.mpr hi, tensorWrites_mem ct (ids i) k hk⟩, rfl⟩ ?_
  intro p hp hpj
  rcases (mem_writesOf _ _ _).mp hp with ⟨a, _, hpa⟩
  rcases tensorWrites_snd ct (ids a) p hpa with ⟨k2, hk2, hfst, hsnd⟩
  rw [hpj] at hfst
  have h2 : k2 = k := by omega
  rw [hsnd, h2]

/-- C1: running a bulk evaluator with `compact=true` and with `compact=false`
on the same element-id list produces the same value for each selected entity,
differing only in output layout: for every `i < n_elts` the compact output at
slot `i` (times the stride) equals the non-compact output at slot
`elt_ids[i]` (times the stride), for the constant scalar/vector/tensor
evaluators and for the scalar-at-cells array evaluator (whatever supported
array location backs it). -/
theorem C1_compact_vs_noncompact_same_values
    (n : ℕ) (ids : ℕ → ℕ) (i k3 k9 : ℕ)
    (hi : i < n) (hk3 : k3 < 3) (hk9 : k9 < 9)
    (c1 cv : ℕ → ℚ) (ct : ℕ → ℕ → ℚ)
    (e1 e2 e3 e4 e5 e6 : ℕ → ℚ)
    (reco : ℕ → ℚ) (ain : cs_xdef_array_input_t) (ea eb : ℕ → ℚ)
    (oc onc : ℕ → ℚ)
    (hoc : cs_xdef_eval_scalar_at_cells_by_array reco n (some ids) true ain ea
      = .ok oc)
    (honc : cs_xdef_eval_scalar_at_cells_by_array reco n (some ids) false ain eb
      = .ok onc) :
    cs_xdef_eval_scalar_by_val n (some ids) true c1 e1 i
        = cs_xdef_eval_scalar_by_val n (some ids) false c1 e2 (ids i)
    ∧ cs_xdef_eval_vector_by_val n (some ids) true cv e3 (3 * i + k3)
        = cs_xdef_eval_vector_by_val n (some ids) false cv e4 (3 * ids i + k3)
    ∧ cs_xdef_eval_tensor_by_val n (some ids) true ct e5 (9 * i + k9)
        = cs_xdef_eval_tensor_by_val n (some ids) false ct e6 (9 * ids i + k9)
    ∧ oc i = onc (ids i) := by
  refine ⟨?_, ?_, ?_, ?_⟩
  · have h1 : cs_xdef_eval_scalar_by_val n (some ids) true c1 e1 i = c1 0 :=
      foldl_single_upd_slot_self n (fun _ => c1 0) e1 i hi
    have h2 : cs_xdef_eval_scalar_by_val n (some ids) false c1 e2 (ids i) = c1 0 :=
      foldl_single_upd_slot_ids n ids (fun _ => c1 0) e2 i hi
    rw [h1, h2]
  · rw [vector_by_val_compact_char n ids cv e3 i k3 hi hk3,
      vector_by_val_noncompact_char n ids cv e4 i k3 hi hk3]
  · rw [tensor_by_val_compact_char n ids ct e5 i k9 hi hk9,
      tensor_by_val_noncompact_char n ids ct e6 i k9 hi hk9]
  · cases hL : ain.loc with
    | primal_cell =>
        simp [cs_xdef_eval_scalar_at_cells_by_array, hL, cs_flag_test] at hoc honc
        subst hoc; subst honc
        have h1 := foldl_single_upd_slot_self n (fun i2 => ain.values (ids i2)) ea i hi
        have h2 := foldl_single_upd_slot_ids n ids (fun c2 => ain.values c2) eb i hi
        exact h1.trans h2.symm
    | primal_vtx =>
        simp [cs_xdef_eval_scalar_at_cells_by_array, hL, cs_flag_test] at hoc honc
        subst hoc; subst honc
        have h1 := foldl_single_upd_slot_self n (fun i2 => reco (ids i2)) ea i hi
        have h2 := foldl_single_upd_slot_ids n ids (fun c2 => reco c2) eb i hi
        exact h1.trans h2.symm
    | dual_face_byc =>
        simp [cs_xdef_eval_scalar_at_cells_by_array, hL, cs_flag_test] at hoc
    | other m =>
        simp [cs_xdef_eval_scalar_at_cells_by_array, hL, cs_flag_test] at hoc

/-- Witness for C1: the spec's sampling scenario, cells `{2,5,7}` out of 10,
with concrete constant values and the per-cell scalar array. -/
theorem C1_compact_vs_noncompact_same_values_witness :
    ((1 : ℕ) < 3 ∧ (1 : ℕ) < 3 ∧ (5 : ℕ) < 9)
    ∧ (cs_xdef_eval_scalar_by_val 3 (some testIds) true (fun _ => 7) (fun _ => 0) 1
        = cs_xdef_eval_scalar_by_val 3 (some testIds) false (fun _ => 7)
            (fun _ => 0) (testIds 1)
      ∧ cs_xdef_eval_vector_by_val 3 (some testIds) true testVec3 (fun _ => 0)
            (3 * 1 + 1)
        = cs_xdef_eval_vector_by_val 3 (some testIds) false testVec3
            (fun _ => 0) (3 * testIds 1 + 1)
      ∧ cs_xdef_eval_tensor_by_val 3 (some testIds) true testTensor9
            (fun _ => 0) (9 * 1 + 5)
        = cs_xdef_eval_tensor_by_val 3 (some testIds) false testTensor9
            (fun _ => 0) (9 * testIds 1 + 5)
      ∧ testC1oc 1 = testC1onc (testIds 1)) :=
  ⟨by decide,
   C1_compact_vs_noncompact_same_values 3 testIds 1 1 5 (by decide) (by decide)
     (by decide) (fun _ => 7) testVec3 testTensor9 (fun _ => 0) (fun _ => 0)
     (fun _ => 0) (fun _ => 0) (fun _ => 0) (fun _ => 0) (fun _ => 0)
     testArrayCells (fun _ => 0) (fun _ => 0) testC1oc testC1onc rfl rfl⟩

theorem sum_range_upd_add (N : ℕ) (e : ℕ → ℚ) (j : ℕ) (y : ℚ) (hj : j < N) :
    (∑ v in Finset.range N, upd e j (e j + y) v)
      = (∑ v in Finset.range N, e v) + y := by
  classical
  have hjm : j ∈ Finset.range N := Finset.mem_range.mpr hj
  rw [← Finset.sum_erase_add _ _ hjm, ← Finset.sum_erase_add (Finset.range N) e hjm]
  have h1 : ∑ v in (Finset.range N).erase j, upd e j (e j + y) v
      = ∑ v in (Finset.range N).erase j, e v :=
    Finset.sum_congr rfl
      (fun v hv => upd_of_ne e j (e j + y) v (Finset.ne_of_mem_erase hv))
  rw [h1, upd_at]
  ring

theorem double_accum_fold_sum (N : ℕ) (a b : ℕ → ℕ) (w : ℕ → ℚ) :
    ∀ (l : List ℕ) (e : ℕ → ℚ), (∀ i ∈ l, a i < N ∧ b i < N) →
      (∑ v in Finset.range N,
        (l.foldl (fun ev i =>
          upd (upd ev (a i) (ev (a i) + w i)) (b i)
            ((upd ev (a i) (ev (a i) + w i)) (b i) + w i)) e) v)
      = (∑ v in Finset.range N, e v) + (l.map (fun i => w i + w i)).sum := by
  intro l
  induction l with
  | nil => intro e _; simp
  | cons hd t ih =>
    intro e h
    have hhd := h hd (List.mem_cons_self _ _)
    rw [List.foldl_cons, ih _ (fun i hi2 => h i (List.mem_cons_of_mem _ hi2))]
    have s1 := sum_range_upd_add N e (a hd) (w hd) hhd.1
    have s2 := sum_range_upd_add N (upd e (a hd) (e (a hd) + w hd)) (b hd)
      (w hd) hhd.2
    rw [s2, s1]
    simp only [List.map_cons, List.sum_cons]
    ring

/-- C2: for a face `f` whose cache carries the `tef` face-edge areas, the sum
over the cell's vertices of the contributions added by
`cs_xdef_eval_cw_at_vtx_flux_by_val` (each edge adds half its triangle area
times the normal flux component to both endpoints) equals the full-face flux
`cs_xdef_eval_cw_flux_by_val` stores, i.e. face area times the dot product of
the flux with the unit normal, provided the per-edge triangle areas sum to
the face area (and the face's edge endpoints are local vertex ids). -/
theorem C2_vtx_flux_portions_sum_to_face_flux (area_ext : ℕ → ℚ)
    (cm : cs_cell_mesh_t) (f : ℕ) (flux : ℕ → ℚ) (eval eval0 : ℕ → ℚ)
    (hfeq : cm.flag_feq = true)
    (htgt : ∀ i ∈ List.range' (cm.f2e_idx f) (cm.f2e_idx (f + 1) - cm.f2e_idx f),
      cm.e2v_ids (2 * cm.f2e_ids i) < cm.n_vc
        ∧ cm.e2v_ids (2 * cm.f2e_ids i + 1) < cm.n_vc)
    (harea : ((List.range' (cm.f2e_idx f) (cm.f2e_idx (f + 1) - cm.f2e_idx f)).map
        cm.tef).sum = (cm.face f).meas) :
    (∑ v in Finset.range cm.n_vc,
      (cs_xdef_eval_cw_at_vtx_flux_by_val area_ext cm f flux eval v - eval v))
    = cs_xdef_eval_cw_flux_by_val cm f flux eval0 f := by
  have hF : cs_xdef_eval_cw_at_vtx_flux_by_val area_ext cm f flux eval
      = (List.range' (cm.f2e_idx f) (cm.f2e_idx (f + 1) - cm.f2e_idx f)).foldl
          (fun ev i =>
            upd (upd ev (cm.e2v_ids (2 * cm.f2e_ids i))
                (ev (cm.e2v_ids (2 * cm.f2e_ids i)) +
                  1 / 2 * cm.tef i *
                    cs_math_3_dot_product flux (cm.face f).unitv))
              (cm.e2v_ids (2 * cm.f2e_ids i + 1))
              ((upd ev (cm.e2v_ids (2 * cm.f2e_ids i))
                (ev (cm.e2v_ids (2 * cm.f2e_ids i)) +
                  1 / 2 * cm.tef i *
                    cs_math_3_dot_product flux (cm.face f).unitv))
                  (cm.e2v_ids (2 * cm.f2e_ids i + 1)) +
                1 / 2 * cm.tef i *
                  cs_math_3_dot_product flux (cm.face f).unitv))
          eval := by
    simp only [cs_xdef_eval_cw_at_vtx_flux_by_val, hfeq]
    rfl
  have key := double_accum_fold_sum cm.n_vc
    (fun i => cm.e2v_ids (2 * cm.f2e_ids i))
    (fun i => cm.e2v_ids (2 * cm.f2e_ids i + 1))
    (fun i => 1 / 2 * cm.tef i * cs_math_3_dot_product flux (cm.face f).unitv)
    (List.range' (cm.f2e_idx f) (cm.f2e_idx (f + 1) - cm.f2e_idx f)) eval htgt
  have hRHS : cs_xdef_eval_cw_flux_by_val cm f flux eval0 f
      = (cm.face f).meas * cs_math_3_dot_product (cm.face f).unitv flux :=
    upd_at _ _ _
  rw [hF, Finset.sum_sub_distrib, key, hRHS]
  have hmap : ((List.range' (cm.f2e_idx f) (cm.f2e_idx (f + 1) - cm.f2e_idx f)).map
      (fun i => 1 / 2 * cm.tef i * cs_math_3_dot_product flux (cm.face f).unitv
        + 1 / 2 * cm.tef i * cs_math_3_dot_product flux (cm.face f).unitv)).sum
      = ((List.range' (cm.f2e_idx f) (cm.f2e_idx (f + 1) - cm.f2e_idx f)).map
          (fun i => cm.tef i * cs_math_3_dot_product flux (cm.face f).unitv)).sum := by
    apply congrArg
    apply List.map_congr_left
    intro i _
    ring
  rw [hmap, List.sum_map_mul_right, harea]
  simp only [cs_math_3_dot_product]
  ring

/-- Witness for C2: a unit square face split into two triangles of area 1/2,
normal `(0,0,1)`, constant flux `(0,0,5)`; the three vertex portions sum to
the face flux 5. -/
theorem C2_vtx_flux_portions_sum_to_face_flux_witness :
    (cmC2.flag_feq = true
      ∧ (∀ i ∈ List.range' (cmC2.f2e_idx 0) (cmC2.f2e_idx (0 + 1) - cmC2.f2e_idx 0),
          cmC2.e2v_ids (2 * cmC2.f2e_ids i) < cmC2.n_vc
            ∧ cmC2.e2v_ids (2 * cmC2.f2e_ids i + 1) < cmC2.n_vc)
      ∧ ((List.range' (cmC2.f2e_idx 0) (cmC2.f2e_idx (0 + 1) - cmC2.f2e_idx 0)).map
          cmC2.tef).sum = (cmC2.face 0).meas)
    ∧ (∑ v in Finset.range cmC2.n_vc,
        (cs_xdef_eval_cw_at_vtx_flux_by_val (fun _ => 0) cmC2 0 fluxC2
            (fun _ => 0) v - (fun _ => (0 : ℚ)) v))
      = cs_xdef_eval_cw_flux_by_val cmC2 0 fluxC2 (fun _ => 0) 0 :=
  ⟨⟨by decide, by decide, by norm_num [cmC2, trivialQuant, List.range']⟩,
   C2_vtx_flux_portions_sum_to_face_flux (fun _ => 0) cmC2 0 fluxC2
     (fun _ => 0) (fun _ => 0) (by decide) (by decide)
     (by norm_num [cmC2, trivialQuant, List.range'])⟩

/-- C3 (refuting evaluation): the claim says the cellwise point evaluators
write the three components of point `i` at `out[3*i]`, `out[3*i+1]`,
`out[3*i+2]`.  Evaluating the transcribed code on two points with constant
value `(1,2,3)` and a zero buffer: for point `i = 1` the third component is
written at slot `2*1+2 = 4` (clobbering the second component) and slot `5`
keeps its initial zero, in `cs_xdef_eval_cw_vector_at_xyz_by_val` and in the
primal-cell branch of `cs_xdef_eval_cw_3_at_xyz_by_array` alike. -/
theorem C3_third_component_write_bug :
    cs_xdef_eval_cw_vector_at_xyz_by_val 2 testVec3 (fun _ => 0) 4 = 3
    ∧ cs_xdef_eval_cw_vector_at_xyz_by_val 2 testVec3 (fun _ => 0) 5 = 0
    ∧ cs_xdef_eval_cw_3_at_xyz_by_array (fun _ => 0) cmTrivial 2 inputC3
        (fun _ => 0) = .ok testC3buf
    ∧ testC3buf 4 = 3
    ∧ testC3buf 5 = 0 :=
  ⟨by decide, by decide, rfl, by decide, by decide⟩

/-- C4 (refuting evaluation): the claim says
`cs_xdef_eval_cw_tensor_flux_by_val` stores at `out[3*f .. 3*f+2]` the face
area times the tensor-normal product.  For face `f = 1` of area 2 with unit
normal `(1,0,0)` and the identity tensor on a zero buffer, the expected first
component at `out[3]` is `2`, but the code leaves `out[3..5] = 0` (it scales
stale slots) and parks the unscaled product at `out[0..2]`. -/
theorem C4_tensor_flux_slot_bug :
    cs_xdef_eval_cw_tensor_flux_by_val cmC4 1 idTensor (fun _ => 0) 3 = 0
    ∧ cs_xdef_eval_cw_tensor_flux_by_val cmC4 1 idTensor (fun _ => 0) 4 = 0
    ∧ cs_xdef_eval_cw_tensor_flux_by_val cmC4 1 idTensor (fun _ => 0) 5 = 0
    ∧ cs_xdef_eval_cw_tensor_flux_by_val cmC4 1 idTensor (fun _ => 0) 0 = 1
    ∧ (cmC4.face 1).meas *
        cs_math_33_3_product idTensor (cmC4.face 1).unitv (fun _ => 0) 0 = 2 := by
  refine ⟨?_, ?_, ?_, ?_, ?_⟩ <;>
    norm_num [cs_xdef_eval_cw_tensor_flux_by_val, cs_math_33_3_product, cmC4,
      cmTrivial, idTensor, upd, List.range_succ]

/-- C5 (refuting evaluation): the claim says that with a non-null id list and
`compact=true` the face average of the `i`-th selected face lands densely at
`out[dim*i]`.  Selecting face 2 (`dim=1`, a quadrangle of area 1, constant
analytic value 1, one-point rule) with `compact=true` on a zero buffer, the
average 1 is written at `out[2]` (`dim*f_id`) while the claimed slot
`out[0]` (and `out[1]`) keep their initial zero: `compact` is ignored. -/
theorem C5_compact_ignored_bug :
    cs_xdef_eval_avg_at_b_faces_by_analytic testQtab testSurftri testGet3v 1
        (some fun _ => 2) true connectC5 quantC5 { t_cur := 0 } anaiOne
        .CS_QUADRATURE_BARY 1 (fun _ => 0) = .ok testC5out
    ∧ testC5out 2 = 1
    ∧ testC5out 0 = 0
    ∧ testC5out 1 = 0 := by
  refine ⟨rfl, ?_, ?_, ?_⟩ <;>
    norm_num [testC5out, okOr, cs_xdef_eval_avg_at_b_faces_by_analytic, testQtab,
      qfuncConst1, testSurftri, testGet3v, connectC5, quantC5, anaiOne, upd,
      bufferAt, writeBack, CS_TRIANGLE_CASE, List.range', List.range_succ]

theorem fold3_accum_char (vid : ℕ) (w : ℚ) (c : ℕ → ℚ) (e : ℕ → ℚ) (m : ℕ) :
    ((List.range 3).foldl
      (fun ev k => upd ev (3 * vid + k) (ev (3 * vid + k) + w * c k)) e) m
    = if 3 * vid ≤ m ∧ m < 3 * vid + 3 then e m + w * c (m - 3 * vid) else e m := by
  have h3 : List.range 3 = [0, 1, 2] := rfl
  rw [h3]
  simp only [List.foldl_cons, List.foldl_nil]
  by_cases h2 : m = 3 * vid + 2
  · subst h2
    rw [upd_at, upd_of_ne _ _ _ _ (by omega), upd_of_ne _ _ _ _ (by omega),
      if_pos (by omega)]
    have hs : 3 * vid + 2 - 3 * vid = 2 := by omega
    rw [hs]
  · by_cases h1 : m = 3 * vid + 1
    · subst h1
      rw [upd_of_ne _ _ _ _ (by omega), upd_at, upd_of_ne _ _ _ _ (by omega),
        if_pos (by omega)]
      have hs : 3 * vid + 1 - 3 * vid = 1 := by omega
      rw [hs]
    · by_cases h0 : m = 3 * vid + 0
      · subst h0
        rw [upd_of_ne _ _ _ _ (by omega), upd_of_ne _ _ _ _ (by omega), upd_at,
          if_pos (by omega)]
        have hs : 3 * vid + 0 - 3 * vid = 0 := by omega
        rw [hs]
      · rw [upd_of_ne _ _ _ _ (by omega), upd_of_ne _ _ _ _ (by omega),
          upd_of_ne _ _ _ _ (by omega), if_neg (by omega)]

theorem fold3_scale_char (vid : ℕ) (s : ℚ) (e : ℕ → ℚ) (m : ℕ) :
    ((List.range 3).foldl
      (fun ev k => upd ev (3 * vid + k) (ev (3 * vid + k) * s)) e) m
    = if 3 * vid ≤ m ∧ m < 3 * vid + 3 then e m * s else e m := by
  have h3 : List.range 3 = [0, 1, 2] := rfl
  rw [h3]
  simp only [List.foldl_cons, List.foldl_nil]
  by_cases h2 : m = 3 * vid + 2
  · subst h2
    rw [upd_at, upd_of_ne _ _ _ _ (by omega), upd_of_ne _ _ _ _ (by omega),
      if_pos (by omega)]
  · by_cases h1 : m = 3 * vid + 1
    · subst h1
      rw [upd_of_ne _ _ _ _ (by omega), upd_at, upd_of_ne _ _ _ _ (by omega),
        if_pos (by omega)]
    · by_cases h0 : m = 3 * vid + 0
      · subst h0
        rw [upd_of_ne _ _ _ _ (by omega), upd_of_ne _ _ _ _ (by omega), upd_at,
          if_pos (by omega)]
      · rw [upd_of_ne _ _ _ _ (by omega), upd_of_ne _ _ _ _ (by omega),
          upd_of_ne _ _ _ _ (by omega), if_neg (by omega)]

theorem norm_fold_char (dc : ℕ → ℚ) :
    ∀ (N : ℕ) (e : ℕ → ℚ) (m : ℕ),
    ((List.range N).foldl (fun ev v_id =>
      (List.range 3).foldl
        (fun ev2 k => upd ev2 (3 * v_id + k) (ev2 (3 * v_id + k) * (1 / dc v_id)))
        ev) e) m
    = if m < 3 * N then e m * (1 / dc (m / 3)) else e m := by
  intro N
  induction N with
  | zero => intro e m; simp
  | succ N ih =>
    intro e m
    have hr : List.range (N + 1) = List.range N ++ [N] := List.range_succ N
    rw [hr, List.foldl_append, List.foldl_cons, List.foldl_nil,
      fold3_scale_char, ih]
    by_cases hw : 3 * N ≤ m ∧ m < 3 * N + 3
    · rw [if_pos hw, if_neg (by omega), if_pos (by omega)]
      have hdiv : m / 3 = N := by omega
      rw [hdiv]
    · rw [if_neg hw]
      by_cases hlt : m < 3 * N
      · rw [if_pos hlt, if_pos (by omega)]
      · rw [if_neg hlt, if_neg (by omega)]

theorem vtx_norm_pass_char (dc : ℕ → ℚ) (N : ℕ) (e : ℕ → ℚ) (m : ℕ) :
    vtx_norm_pass N dc e m = if m < 3 * N then e m * (1 / dc (m / 3)) else e m :=
  norm_fold_char dc N e m

theorem accum_cell_inv (a_ids : ℕ → ℕ) (a_vol : ℕ → ℚ) (cv V : ℕ → ℚ)
    (hcv : ∀ k, k < 3 → cv k = V k) :
    ∀ (lj : List ℕ) (st : (ℕ → ℚ) × (ℕ → ℚ)),
      (∀ v k, k < 3 → st.2 (3 * v + k) = st.1 v * V k) →
      ∀ v k, k < 3 →
      (lj.foldl (fun st2 j =>
        (upd st2.1 (a_ids j) (st2.1 (a_ids j) + a_vol j),
         (List.range 3).foldl
           (fun ev k2 => upd ev (3 * a_ids j + k2)
             (ev (3 * a_ids j + k2) + a_vol j * cv k2)) st2.2)) st).2 (3 * v + k)
      = (lj.foldl (fun st2 j =>
        (upd st2.1 (a_ids j) (st2.1 (a_ids j) + a_vol j),
         (List.range 3).foldl
           (fun ev k2 => upd ev (3 * a_ids j + k2)
             (ev (3 * a_ids j + k2) + a_vol j * cv k2)) st2.2)) st).1 v * V k := by
  intro lj
  induction lj with
  | nil => intro st h v k hk; exact h v k hk
  | cons j t ih =>
    intro st h v k hk
    rw [List.foldl_cons]
    refine ih _ ?_ v k hk
    intro v2 k2 hk2
    show ((List.range 3).foldl
        (fun ev k3 => upd ev (3 * a_ids j + k3)
          (ev (3 * a_ids j + k3) + a_vol j * cv k3)) st.2) (3 * v2 + k2)
      = upd st.1 (a_ids j) (st.1 (a_ids j) + a_vol j) v2 * V k2
    rw [fold3_accum_char]
    by_cases hv2 : v2 = a_ids j
    · rw [if_pos (by omega), hv2, upd_at]
      have hs : 3 * a_ids j + k2 - 3 * a_ids j = k2 := by omega
      rw [hs, h (a_ids j) k2 hk2, hcv k2 hk2]
      ring
    · rw [if_neg (by omega), upd_of_ne _ _ _ _ hv2, h v2 k2 hk2]

theorem accum_cells_inv (a_ids : ℕ → ℕ) (a_vol : ℕ → ℚ) (idx : ℕ → ℕ)
    (cellvec : ℕ → ℕ → ℚ) (V : ℕ → ℚ) :
    ∀ (lc : List ℕ), (∀ c ∈ lc, ∀ k, k < 3 → cellvec c k = V k) →
    ∀ (st : (ℕ → ℚ) × (ℕ → ℚ)),
      (∀ v k, k < 3 → st.2 (3 * v + k) = st.1 v * V k) →
      ∀ v k, k < 3 →
      (lc.foldl (fun st c_id =>
        (List.range' (idx c_id) (idx (c_id + 1) - idx c_id)).foldl
          (fun st2 j =>
            (upd st2.1 (a_ids j) (st2.1 (a_ids j) + a_vol j),
             (List.range 3).foldl
               (fun ev k2 => upd ev (3 * a_ids j + k2)
                 (ev (3 * a_ids j + k2) + a_vol j * cellvec c_id k2)) st2.2))
          st) st).2 (3 * v + k)
      = (lc.foldl (fun st c_id =>
        (List.range' (idx c_id) (idx (c_id + 1) - idx c_id)).foldl
          (fun st2 j =>
            (upd st2.1 (a_ids j) (st2.1 (a_ids j) + a_vol j),
             (List.range 3).foldl
               (fun ev k2 => upd ev (3 * a_ids j + k2)
                 (ev (3 * a_ids j + k2) + a_vol j * cellvec c_id k2)) st2.2))
          st) st).1 v * V k := by
  intro lc
  induction lc with
  | nil => intro _ st h v k hk; exact h v k hk
  | cons c t ih =>
    intro hlc st h v k hk
    rw [List.foldl_cons]
    exact ih (fun c2 hc2 => hlc c2 (List.mem_cons_of_mem _ hc2)) _
      (accum_cell_inv a_ids a_vol (cellvec c) V
        (hlc c (List.mem_cons_self _ _)) _ st h) v k hk

theorem vtx_accum_state_inv (connect : cs_cdo_connect_t)
    (quant : cs_cdo_quantities_t) (cellvec : ℕ → ℕ → ℚ) (V : ℕ → ℚ)
    (hval : ∀ c, c < quant.n_cells → ∀ k, k < 3 → cellvec c k = V k) :
    ∀ v k, k < 3 →
      (vtx_accum_state connect quant cellvec (fun _ => 0)).2 (3 * v + k)
        = (vtx_accum_state connect quant cellvec (fun _ => 0)).1 v * V k :=
  accum_cells_inv connect.c2v.ids quant.dcell_vol connect.c2v.idx cellvec V
    (List.range quant.n_cells)
    (fun c hc => hval c (List.mem_range.mp hc))
    ((fun _ => 0), (fun _ => 0))
    (fun v k _ => by ring)

/-- C6: if a stride-3 cell-supported array holds the same vector `V` in every
cell and the evaluation buffer starts at zero, then for every vertex whose
accumulated dual volume is positive, `cs_xdef_eval_3_at_all_vertices_by_array`
(full dense vertex query) writes exactly `V` at that vertex: the
volume-weighted sum divided by the accumulated volume reproduces the constant
in exact arithmetic. -/
theorem C6_constant_cell_array_reconstructs_exactly
    (reco_dfbyc : ℕ → ℕ → ℚ) (n_elts : ℕ) (connect : cs_cdo_connect_t)
    (quant : cs_cdo_quantities_t) (input : cs_xdef_array_input_t) (V : ℕ → ℚ)
    (v k : ℕ)
    (hn : ¬ n_elts < quant.n_vertices)
    (hloc : input.loc = cs_flag.primal_cell)
    (hval : ∀ c, c < quant.n_cells → ∀ k2, k2 < 3 →
      input.values (input.stride * c + k2) = V k2)
    (hv : v < quant.n_vertices) (hk : k < 3)
    (hdc : 0 < (vtx_accum_state connect quant
        (fun c_id k2 => input.values (input.stride * c_id + k2))
        (fun _ => 0)).1 v) :
    cs_xdef_eval_3_at_all_vertices_by_array reco_dfbyc n_elts none false
        connect quant input (fun _ => 0)
      = .ok (vtx_norm_pass quant.n_vertices
          (vtx_accum_state connect quant
            (fun c_id k2 => input.values (input.stride * c_id + k2))
            (fun _ => 0)).1
          (vtx_accum_state connect quant
            (fun c_id k2 => input.values (input.stride * c_id + k2))
            (fun _ => 0)).2)
    ∧ vtx_norm_pass quant.n_vertices
        (vtx_accum_state connect quant
          (fun c_id k2 => input.values (input.stride * c_id + k2))
          (fun _ => 0)).1
        (vtx_accum_state connect quant
          (fun c_id k2 => input.values (input.stride * c_id + k2))
          (fun _ => 0)).2 (3 * v + k) = V k := by
  constructor
  · simp [cs_xdef_eval_3_at_all_vertices_by_array, hn, hloc, cs_flag_test]
  · rw [vtx_norm_pass_char, if_pos (by omega : 3 * v + k < 3 * quant.n_vertices)]
    have hdiv : (3 * v + k) / 3 = v := by omega
    rw [hdiv, vtx_accum_state_inv connect quant
      (fun c_id k2 => input.values (input.stride * c_id + k2)) V hval v k hk]
    have hne : (vtx_accum_state connect quant
        (fun c_id k2 => input.values (input.stride * c_id + k2))
        (fun _ => 0)).1 v ≠ 0 := ne_of_gt hdc
    field_simp

/-- Witness for C6: one cell owning vertices 0 and 1 with unit dual volumes,
cell value `(1,2,3)`; vertex 0's second component reconstructs to 2. -/
theorem C6_constant_cell_array_reconstructs_exactly_witness :
    (¬ (2 : ℕ) < quantC6.n_vertices
      ∧ inputC6.loc = cs_flag.primal_cell
      ∧ (∀ c, c < quantC6.n_cells → ∀ k2, k2 < 3 →
          inputC6.values (inputC6.stride * c + k2) = testVec3 k2)
      ∧ (0 : ℕ) < quantC6.n_vertices
      ∧ (1 : ℕ) < 3
      ∧ 0 < (vtx_accum_state connectC6 quantC6
          (fun c_id k2 => inputC6.values (inputC6.stride * c_id + k2))
          (fun _ => 0)).1 0)
    ∧ vtx_norm_pass quantC6.n_vertices
        (vtx_accum_state connectC6 quantC6
          (fun c_id k2 => inputC6.values (inputC6.stride * c_id + k2))
          (fun _ => 0)).1
        (vtx_accum_state connectC6 quantC6
          (fun c_id k2 => inputC6.values (inputC6.stride * c_id + k2))
          (fun _ => 0)).2 (3 * 0 + 1) = testVec3 1 := by
  have h1 : ¬ (2 : ℕ) < quantC6.n_vertices := by decide
  have h2 : inputC6.loc = cs_flag.primal_cell := rfl
  have h3 : ∀ c, c < quantC6.n_cells → ∀ k2, k2 < 3 →
      inputC6.values (inputC6.stride * c + k2) = testVec3 k2 := by
    intro c hc k2 hk2
    have hc1 : c < 1 := hc
    have hc0 : c = 0 := by omega
    subst hc0
    simp [inputC6, testVec3]
  have h4 : (0 : ℕ) < quantC6.n_vertices := by decide
  have h5 : (1 : ℕ) < 3 := by decide
  have h6 : 0 < (vtx_accum_state connectC6 quantC6
      (fun c_id k2 => inputC6.values (inputC6.stride * c_id + k2))
      (fun _ => 0)).1 0 := by
    norm_num [vtx_accum_state, connectC6, quantC6, inputC6, testVec3, upd,
      List.range', List.range_succ]
  exact ⟨⟨h1, h2, h3, h4, h5, h6⟩,
    (C6_constant_cell_array_reconstructs_exactly (fun _ _ => 0) 2 connectC6
      quantC6 inputC6 testVec3 0 1 h1 h2 h3 h4 h5 h6).2⟩

/-- C7: every cellwise analytic flux evaluator (vertex-portion flux,
full-face vector flux, full-face tensor flux) raises the fatal
"invalid quadrature" error when `CS_QUADRATURE_HIGHEST` is requested: no flux
value is computed and the request is never downgraded. -/
theorem C7_highest_quadrature_is_fatal (tria3pts : QuadTria3ptsT)
    (area_ext : ℕ → ℚ) (cm : cs_cell_mesh_t) (f : ℕ) (ts : cs_time_step_t)
    (anai : cs_xdef_analytic_input_t) (eval : ℕ → ℚ) :
    cs_xdef_eval_cw_at_vtx_flux_by_analytic tria3pts area_ext cm f ts anai
        .CS_QUADRATURE_HIGHEST eval = .error " Invalid type of quadrature."
    ∧ cs_xdef_eval_cw_flux_by_analytic tria3pts cm f ts anai
        .CS_QUADRATURE_HIGHEST eval = .error " Invalid type of quadrature."
    ∧ cs_xdef_eval_cw_tensor_flux_by_analytic tria3pts cm f ts anai
        .CS_QUADRATURE_HIGHEST eval = .error " Invalid type of quadrature." :=
  ⟨rfl, rfl, rfl⟩

/-- C8: a bulk array evaluation whose support flag matches none of the
supports the query handles (neither cells nor vertices for scalar-at-cells;
not vertices for at-vertices) aborts with the fatal descriptive error of the
source, returning no buffer at all. -/
theorem C8_unsupported_array_support_is_fatal (reco_pv : ℕ → ℚ)
    (n_elts n2 : ℕ) (elt_ids elt_ids2 : Option (ℕ → ℕ))
    (compact compact2 : Bool) (input input2 : cs_xdef_array_input_t)
    (e1 e2 : ℕ → ℚ)
    (h1 : cs_flag_test input.loc cs_flag.primal_cell = false)
    (h2 : cs_flag_test input.loc cs_flag.primal_vtx = false)
    (h3 : cs_flag_test input2.loc cs_flag.primal_vtx = false) :
    cs_xdef_eval_scalar_at_cells_by_array reco_pv n_elts elt_ids compact input e1
      = .error "cs_xdef_eval_scalar_at_cells_by_array: Invalid support for the input array"
    ∧ cs_xdef_eval_at_vertices_by_array n2 elt_ids2 compact2 input2 e2
      = .error "cs_xdef_eval_at_vertices_by_array: Invalid support for the input array" := by
  constructor
  · simp [cs_xdef_eval_scalar_at_cells_by_array, h1, h2]
  · simp [cs_xdef_eval_at_vertices_by_array, h3]

/-- Witness for C8: an array supported on dual faces by cell is rejected by
both bulk evaluators. -/
theorem C8_unsupported_array_support_is_fatal_witness :
    (cs_flag_test inputC8.loc cs_flag.primal_cell = false
      ∧ cs_flag_test inputC8.loc cs_flag.primal_vtx = false)
    ∧ (cs_xdef_eval_scalar_at_cells_by_array (fun _ => 0) 4 none false inputC8
          (fun _ => 0)
        = .error "cs_xdef_eval_scalar_at_cells_by_array: Invalid support for the input array"
      ∧ cs_xdef_eval_at_vertices_by_array 4 none false inputC8 (fun _ => 0)
        = .error "cs_xdef_eval_at_vertices_by_array: Invalid support for the input array") :=
  ⟨⟨by decide, by decide⟩,
   C8_unsupported_array_support_is_fatal (fun _ => 0) 4 4 none none false false
     inputC8 inputC8 (fun _ => 0) (fun _ => 0) (by decide) (by decide) (by decide)⟩

theorem accum_range_char (s : ℕ) (c : ℕ → ℚ) : ∀ (e : ℕ → ℚ) (m : ℕ),
    ((List.range s).foldl (fun ev k => upd ev k (ev k + c k)) e) m
      = if m < s then e m + c m else e m := by
  induction s with
  | zero => intro e m; simp
  | succ s ih =>
    intro e m
    have hr : List.range (s + 1) = List.range s ++ [s] := List.range_succ s
    rw [hr, List.foldl_append, List.foldl_cons, List.foldl_nil]
    by_cases hm : m = s
    · subst hm
      rw [upd_at, ih, if_neg (by omega), if_pos (by omega)]
    · rw [upd_of_ne _ _ _ _ hm, ih]
      by_cases hms : m < s
      · rw [if_pos hms, if_pos (by omega)]
      · rw [if_neg hms, if_neg (by omega)]

theorem accum_nested_char {α : Type} (s : ℕ) (c : α → ℕ → ℚ) :
    ∀ (l : List α) (e : ℕ → ℚ) (m : ℕ),
    (l.foldl (fun ev v =>
      (List.range s).foldl (fun ev2 k => upd ev2 k (ev2 k + c v k)) ev) e) m
      = if m < s then e m + (l.map (fun v => c v m)).sum else e m := by
  intro l
  induction l with
  | nil =>
    intro e m
    by_cases hm : m < s
    · rw [if_pos hm]; simp
    · rw [if_neg hm]; rfl
  | cons a t ih =>
    intro e m
    rw [List.foldl_cons, ih]
    by_cases hm : m < s
    · rw [if_pos hm, accum_range_char, if_pos hm, if_pos hm]
      simp only [List.map_cons, List.sum_cons]
      ring
    · rw [if_neg hm, accum_range_char, if_neg hm, if_neg hm]

theorem accum_fixed_slot_char {α : Type} (j : ℕ) (c : α → ℚ) :
    ∀ (l : List α) (e : ℕ → ℚ) (m : ℕ),
    (l.foldl (fun ev v => upd ev j (ev j + c v)) e) m
      = if m = j then e j + (l.map c).sum else e m := by
  intro l
  induction l with
  | nil =>
    intro e m
    by_cases hm : m = j
    · rw [if_pos hm, hm]; simp
    · rw [if_neg hm]; rfl
  | cons a t ih =>
    intro e m
    rw [List.foldl_cons, ih]
    by_cases hm : m = j
    · rw [if_pos hm, if_pos hm, upd_at]
      simp only [List.map_cons, List.sum_cons]
      ring
    · rw [if_neg hm, if_neg hm, upd_of_ne _ _ _ _ hm]

theorem accum_swapped_char {α : Type} (c : α → ℕ → ℚ) (l : List α) :
    ∀ (s : ℕ) (e : ℕ → ℚ) (m : ℕ),
    ((List.range s).foldl
      (fun ev k => l.foldl (fun ev2 v => upd ev2 k (ev2 k + c v k)) ev) e) m
      = if m < s then e m + (l.map (fun v => c v m)).sum else e m := by
  intro s
  induction s with
  | zero => intro e m; simp
  | succ s ih =>
    intro e m
    have hr : List.range (s + 1) = List.range s ++ [s] := List.range_succ s
    rw [hr, List.foldl_append, List.foldl_cons, List.foldl_nil,
      accum_fixed_slot_char]
    by_cases hm : m = s
    · subst hm
      rw [if_pos rfl, ih, if_neg (by omega), if_pos (by omega)]
    · rw [if_neg hm, ih]
      by_cases hms : m < s
      · rw [if_pos hms, if_pos (by omega)]
      · rw [if_neg hms, if_neg (by omega)]

/-- C9: the cellwise evaluators interpolating vertex-supported data to the
cell accumulate into the caller's buffer instead of overwriting it: the final
output equals the initial contents plus the weight-summed vertex values, for
`cs_xdef_eval_cw_cell_by_array` (vertex-support array),
`cs_xdef_eval_cw_cell_by_field` (vertex field) and
`cs_xdef_eval_cw_3_at_xyz_by_field` (vertex field). -/
theorem C9_vertex_interpolation_accumulates
    (reco : ℕ → ℚ) (cm : cs_cell_mesh_t) (input : cs_xdef_array_input_t)
    (field1 field3 : cs_field_t) (n_points : ℕ) (e1 e2 e3 : ℕ → ℚ)
    (k k3 : ℕ) (o1 o2 o3 : ℕ → ℚ)
    (hloc : input.loc = cs_flag.primal_vtx)
    (hk : k < input.stride)
    (hf1 : field1.location_id = v_ml_id)
    (hf3 : field3.location_id = v_ml_id)
    (hk3 : k3 < 3)
    (h1 : cs_xdef_eval_cw_cell_by_array reco cm input e1 = .ok o1)
    (h2 : cs_xdef_eval_cw_cell_by_field cm field1 e2 = .ok o2)
    (h3 : cs_xdef_eval_cw_3_at_xyz_by_field cm n_points field3 e3 = .ok o3) :
    o1 k = e1 k + ((List.range cm.n_vc).map
        (fun v => cm.wvc v * input.values (input.stride * cm.v_ids v + k))).sum
    ∧ o2 0 = e2 0 + ((List.range cm.n_vc).map
        (fun v => cm.wvc v * field1.val (cm.v_ids v))).sum
    ∧ o3 k3 = e3 k3 + ((List.range cm.n_vc).map
        (fun v => cm.wvc v * field3.val (3 * cm.v_ids v + k3))).sum := by
  refine ⟨?_, ?_, ?_⟩
  · simp [cs_xdef_eval_cw_cell_by_array, hloc, cs_flag_test] at h1
    subst h1
    rw [accum_nested_char, if_pos hk]
  · simp [cs_xdef_eval_cw_cell_by_field, hf1, c_ml_id, v_ml_id] at h2
    subst h2
    rw [accum_fixed_slot_char, if_pos rfl]
  · simp [cs_xdef_eval_cw_3_at_xyz_by_field, hf3, c_ml_id, v_ml_id] at h3
    subst h3
    rw [accum_swapped_char, if_pos hk3]

/-- Witness for C9: two vertices of weight 1/2 with per-slot values on a zero
buffer. -/
theorem C9_vertex_interpolation_accumulates_witness :
    (inputC9.loc = cs_flag.primal_vtx
      ∧ (1 : ℕ) < inputC9.stride
      ∧ fieldC9s.location_id = v_ml_id
      ∧ fieldC9v.location_id = v_ml_id
      ∧ (2 : ℕ) < 3)
    ∧ (testC9o1 1 = (fun _ => (0 : ℚ)) 1 + ((List.range cmC9.n_vc).map
          (fun v => cmC9.wvc v *
            inputC9.values (inputC9.stride * cmC9.v_ids v + 1))).sum
      ∧ testC9o2 0 = (fun _ => (0 : ℚ)) 0 + ((List.range cmC9.n_vc).map
          (fun v => cmC9.wvc v * fieldC9s.val (cmC9.v_ids v))).sum
      ∧ testC9o3 2 = (fun _ => (0 : ℚ)) 2 + ((List.range cmC9.n_vc).map
          (fun v => cmC9.wvc v * fieldC9v.val (3 * cmC9.v_ids v + 2))).sum) :=
  ⟨⟨by decide, by decide, by decide, by decide, by decide⟩,
   C9_vertex_interpolation_accumulates (fun _ => 0) cmC9 inputC9 fieldC9s
     fieldC9v 0 (fun _ => 0) (fun _ => 0) (fun _ => 0) 1 2 testC9o1 testC9o2
     testC9o3 (by decide) (by decide) (by decide) (by decide) (by decide)
     rfl rfl rfl⟩

/-- C10: `cs_xdef_eval_3_at_all_vertices_by_array` accepts only a full dense
vertex query: a non-null element-id list, or an element count below the
mesh's vertex total, is a fatal error before any output is written. -/
theorem C10_partial_vertex_query_is_fatal (reco_dfbyc : ℕ → ℕ → ℚ)
    (n_elts : ℕ) (elt_ids : Option (ℕ → ℕ)) (compact : Bool)
    (connect : cs_cdo_connect_t) (quant : cs_cdo_quantities_t)
    (input : cs_xdef_array_input_t) (eval : ℕ → ℚ)
    (h : elt_ids.isSome ∨ n_elts < quant.n_vertices) :
    cs_xdef_eval_3_at_all_vertices_by_array reco_dfbyc n_elts elt_ids compact
        connect quant input eval
      = .error "cs_xdef_eval_3_at_all_vertices_by_array: Invalid case" := by
  unfold cs_xdef_eval_3_at_all_vertices_by_array
  rw [if_pos h]

/-- Witness for C10: a dense query over 0 elements on a 2-vertex mesh is
rejected. -/
theorem C10_partial_vertex_query_is_fatal_witness :
    ((Option.isSome (@Option.none (ℕ → ℕ)) ∨ (0 : ℕ) < quantC6.n_vertices)
      ∧ cs_xdef_eval_3_at_all_vertices_by_array (fun _ _ => 0) 0 none false
          connectC6 quantC6 inputC6 (fun _ => 0)
        = .error "cs_xdef_eval_3_at_all_vertices_by_array: Invalid case") :=
  ⟨Or.inr (by decide),
   C10_partial_vertex_query_is_fatal (fun _ _ => 0) 0 none false connectC6
     quantC6 inputC6 (fun _ => 0) (Or.inr (by decide))⟩
